import Mathlib

/-!
Verification development for the `cmsgov` repository (`scripts/remodel.py` and
`tests/test_provider_data.py`).

The Python source is shallowly embedded: the OpenAPI document objects of the
`oapi.oas` library become Lean structures restricted to the fields the script
touches, Python dictionaries (which preserve insertion order) become
association lists with `dictGet?` / `dictInsert` / `dictErase` matching
`d[k]`, `d[k] = v` and `d.pop(k)`, in-place mutation becomes explicit state
passing, and raising becomes `Except PyErr`.  External library behaviour the
script relies on (`json.loads` / `json.dumps`, `yaml.safe_load`, `pathlib`
suffix handling) is modelled by executable Lean functions; each model states
its simplifications in its doc comment.
-/

namespace Cmsgov

/-- Python exceptions raised (directly or by library calls) in `remodel.py`. -/
inductive PyErr where
  | valueError (msg : String)
  | keyError (msg : String)
  | attributeError (msg : String)
  | typeError (msg : String)
  | jsonPointerError (msg : String)

/-! ### Python `dict` as an insertion-ordered association list -/

/-- `d[k]`: first value bound to `k` (Python dicts have unique keys). -/
def dictGet? {α : Type} : List (String × α) → String → Option α
  | [], _ => none
  | (k0, v0) :: rest, k => if k0 = k then some v0 else dictGet? rest k

/-- `d[k] = v`: replace in place when the key exists, append otherwise. -/
def dictInsert {α : Type} : List (String × α) → String → α → List (String × α)
  | [], k, v => [(k, v)]
  | (k0, v0) :: rest, k, v =>
    if k0 = k then (k0, v) :: rest else (k0, v0) :: dictInsert rest k v

/-- `d.pop(k)` (removal part): drop the first binding of `k`. -/
def dictErase {α : Type} : List (String × α) → String → List (String × α)
  | [], _ => []
  | (k0, v0) :: rest, k => if k0 = k then rest else (k0, v0) :: dictErase rest k

/-! ### Python string operations used by the script, on character lists -/

/-- Python `s.startswith(pre)`. -/
def strStarts (s pre : String) : Bool := pre.data.isPrefixOf s.data

/-- Python `s.endswith(suf)`. -/
def strEnds (s suf : String) : Bool := suf.data.isSuffixOf s.data

/-- Python `s[n:]` (slicing counts characters). -/
def strDropChars (s : String) (n : Nat) : String := ⟨s.data.drop n⟩

/-- Python `sub in s` (substring containment). -/
def strContains (s sub : String) : Bool := decide (2 ≤ (s.splitOn sub).length)

/-- Python `s.lower()` (per-character, which agrees with CPython on the
ASCII file names and suffixes the script handles). -/
def strToLower (s : String) : String := ⟨s.data.map Char.toLower⟩

/-! ### The `oapi.oas` object model, restricted to the fields `remodel.py` uses -/

/-- `oapi.oas.Schema` / `oapi.oas.Reference` where the script stores or reads a
schema-or-reference value.  `Schema` fields kept: `type_`, `items`,
`description`, `properties`, `any_of`; a `Reference` holds `ref`. -/
inductive Schema where
  | reference (ref : String)
  | object (type_ : Option String) (items : Option Schema)
      (description : Option String)
      (properties : Option (List (String × Schema)))
      (anyOf : Option (List Schema))

/-- `oapi.oas.Parameter` / `oapi.oas.Reference` as found in an operation's
`parameters` array.  Fields kept: `name`, `in_`, `required`, `style`,
`schema`, `description`. -/
inductive Param where
  | reference (ref : String)
  | mk (name : Option String) (in_ : Option String) (required : Option Bool)
      (style : Option String) (schema : Option Schema)
      (description : Option String)

/-- `oapi.oas.MediaType` (only its `schema` member is used). -/
structure MediaType where
  schema : Option Schema

/-- `oapi.oas.Response` (only its `content` member is used). -/
structure Response where
  content : Option (List (String × MediaType))

/-- `oapi.oas.Operation`, restricted to `summary`, `description`,
`parameters` and `responses`. -/
structure Operation where
  summary : Option String
  description : Option String
  parameters : Option (List Param)
  responses : Option (List (String × Response))

/-- `oapi.oas.PathItem`, restricted to its operation members. -/
structure PathItem where
  get : Option Operation
  put : Option Operation
  post : Option Operation
  patch : Option Operation
  delete : Option Operation

/-- `oapi.oas.Server` (fields used by `fix_provider_data_openapi` and
`update_client`). -/
structure Server where
  url : String
  description : Option String

/-- `oapi.oas.Components`, restricted to `schemas`, `parameters`, `responses`. -/
structure Components where
  schemas : Option (List (String × Schema))
  parameters : Option (List (String × Param))
  responses : Option (List (String × Response))

/-- `oapi.oas.OpenAPI`, restricted to `servers`, `components`, `paths`. -/
structure OpenAPI where
  servers : Option (List Server)
  components : Option Components
  paths : Option (List (String × PathItem))

/-! ### Module-level schema constants of `remodel.py` (lines 38-42) -/

def STRING_SCHEMA : Schema := .object (some "string") none none none none

def INTEGER_SCHEMA : Schema := .object (some "integer") none none none none

def BOOLEAN_SCHEMA : Schema := .object (some "boolean") none none none none

def OBJECT_SCHEMA : Schema := .object (some "object") none none none none

def ARRAY_SCHEMA : Schema := .object (some "array") none none none none

/-! ### Helper projections used throughout the development -/

/-- Look a path key up in a document's `paths`. -/
def pathsLookup (doc : OpenAPI) (k : String) : Option PathItem :=
  match doc.paths with
  | none => none
  | some ps => dictGet? ps k

/-- The `parameters` array of the GET operation at path `k`, if present. -/
def paramsAt (doc : OpenAPI) (k : String) : Option (List Param) :=
  match pathsLookup doc k with
  | none => none
  | some item =>
    match item.get with
    | none => none
    | some op => op.parameters

/-- `update_client`: `url = servers[0].url if open_api.servers else ""`. -/
def firstServerUrl (doc : OpenAPI) : String :=
  match doc.servers with
  | some (s :: _) => s.url
  | _ => ""

/-- Python truthiness of `openapi_document.servers` (`None` or empty is falsy). -/
def serversFalsy (s : Option (List Server)) : Bool :=
  match s with
  | none => true
  | some l => l.isEmpty

/-- Error-propagating sequencing of the script's in-place mutations
(an uncaught Python exception aborts the remaining statements). -/
def exBind (x : Except PyErr OpenAPI) (f : OpenAPI → Except PyErr OpenAPI) :
    Except PyErr OpenAPI :=
  match x with
  | .error e => .error e
  | .ok d => f d

/-- `openapi_document.components.schemas`: `AttributeError` when `components`
is `None`, `TypeError` when `schemas` is `None` and is then subscripted. -/
def getSchemas (doc : OpenAPI) : Except PyErr (List (String × Schema)) :=
  match doc.components with
  | none => .error (.attributeError "schemas")
  | some c =>
    match c.schemas with
    | none => .error (.typeError "schemas")
    | some s => .ok s

/-- Store a new `schemas` mapping back into the document's components. -/
def setSchemas (doc : OpenAPI) (s : List (String × Schema)) : OpenAPI :=
  match doc.components with
  | none => { doc with components := some ⟨some s, none, none⟩ }
  | some c => { doc with components := some { c with schemas := some s } }

/-! ### `fix_provider_data_openapi` (remodel.py lines 82-335), stage by stage -/

/-- remodel.py lines 93-100: add a server when `openapi_document.servers` is
falsy. -/
def addServerStage (doc : OpenAPI) : OpenAPI :=
  if serversFalsy doc.servers then
    { doc with
      servers := some [⟨"https://data.cms.gov/provider-data/api/1",
                        some "CMS Provider Data API V1"⟩] }
  else doc

/-- The schema stored at `schemas["datasets"]` (remodel.py lines 108-112). -/
def datasetsSchema : Schema :=
  .object (some "array") (some (.reference "#/components/schemas/dataset"))
    (some "An array of datasets.") none none

/-- remodel.py lines 101-112: `schemas["datasets"] = Schema(...)`. -/
def datasetsSchemaStage (doc : OpenAPI) : Except PyErr OpenAPI :=
  match getSchemas doc with
  | .error e => .error e
  | .ok s => .ok (setSchemas doc (dictInsert s "datasets" datasetsSchema))

/-- The path prefix checked by the rename loop (remodel.py line 119). -/
def oldPathStart : String := "/provider-data/api/1/"

/-- remodel.py lines 118-121: iterate over a snapshot of the path keys; raise
`ValueError(path)` on an unexpected prefix, otherwise
`paths[path[20:]] = paths.pop(path)`. -/
def renameLoop : List String → List (String × PathItem) →
    Except PyErr (List (String × PathItem))
  | [], d => .ok d
  | p :: ps, d =>
    if strStarts p oldPathStart then
      match dictGet? d p with
      | none => .error (.keyError p)
      | some item => renameLoop ps (dictInsert (dictErase d p) (strDropChars p 20) item)
    else .error (.valueError p)

/-- remodel.py lines 113-121: the path-rename step. -/
def renameStage (doc : OpenAPI) : Except PyErr OpenAPI :=
  match doc.paths with
  | none => .error (.attributeError "keys")
  | some ps =>
    match renameLoop (ps.map Prod.fst) ps with
    | .error e => .error e
    | .ok ps2 => .ok { doc with paths := some ps2 }

/-- remodel.py lines 136-144: keep a parameter unless it is a `Reference`
whose `ref` is `#/components/parameters/datasetUuid`. -/
def keepParam (p : Param) : Bool :=
  match p with
  | .reference r => if r = "#/components/parameters/datasetUuid" then false else true
  | .mk _ _ _ _ _ _ => true

/-- remodel.py lines 145-150: set
`responses["200"].content["application/json"].schema.ref`.  Setting `.ref`
is only valid on a `Reference` object; on `None` or a `Schema` the sob model
raises. -/
def setResponses200JsonRef (rs : List (String × Response)) (r : String) :
    Except PyErr (List (String × Response)) :=
  match dictGet? rs "200" with
  | none => .error (.keyError "200")
  | some resp =>
    match resp.content with
    | none => .error (.typeError "content")
    | some content =>
      match dictGet? content "application/json" with
      | none => .error (.keyError "application/json")
      | some mt =>
        match mt.schema with
        | none => .error (.attributeError "ref")
        | some (.object _ _ _ _ _) => .error (.attributeError "ref")
        | some (.reference _) =>
          .ok (dictInsert rs "200"
            { resp with
              content := some (dictInsert content "application/json"
                ⟨some (.reference r)⟩) })

/-- remodel.py lines 130-150: mutations applied to the GET operation of the
copied path item, in source order: set the summary, filter the parameters
(`parameters or ()` when unset), set the 200 response schema ref. -/
def dupGetTransform (g : Operation) : Except PyErr Operation :=
  match g.responses with
  | none => .error (.typeError "responses")
  | some rs =>
    match setResponses200JsonRef rs "#/components/schemas/datasets" with
    | .error e => .error e
    | .ok rs2 =>
      .ok { g with
            summary := some "Get all datasets."
            parameters := some ((match g.parameters with
              | none => []
              | some l => l).filter keepParam)
            responses := some rs2 }

/-- The path key copied from (remodel.py line 128). -/
def metastoreIdKey : String := "/metastore/schemas/dataset/items/{identifier}"

/-- The path key created by the duplication (remodel.py line 126). -/
def metastoreItemsKey : String := "/metastore/schemas/dataset/items"

/-- remodel.py lines 122-150: duplicate the single-dataset path item into
`/metastore/schemas/dataset/items` (deep copy) and patch its GET operation. -/
def duplicateStage (doc : OpenAPI) : Except PyErr OpenAPI :=
  match doc.paths with
  | none => .error (.typeError "paths")
  | some ps =>
    match dictGet? ps metastoreIdKey with
    | none => .error (.keyError metastoreIdKey)
    | some src =>
      match src.get with
      | none => .error (.attributeError "summary")
      | some g =>
        match dupGetTransform g with
        | .error e => .error e
        | .ok g2 =>
          .ok { doc with
                paths := some (dictInsert ps metastoreItemsKey
                  { src with get := some g2 }) }

/-- remodel.py lines 151-152:
`schemas["dataset"].properties["landingPage"] = STRING_SCHEMA`. -/
def landingPageStage (doc : OpenAPI) : Except PyErr OpenAPI :=
  match getSchemas doc with
  | .error e => .error e
  | .ok s =>
    match dictGet? s "dataset" with
    | none => .error (.keyError "dataset")
    | some (.reference _) => .error (.attributeError "properties")
    | some (.object t it d props ao) =>
      match props with
      | none => .error (.typeError "properties")
      | some pr =>
        .ok (setSchemas doc (dictInsert s "dataset"
          (.object t it d (some (dictInsert pr "landingPage" STRING_SCHEMA)) ao)))

/-- remodel.py lines 153-161: resolve
`/components/schemas/datastoreQuery/properties/resources/items/properties`
and set its `id` member to `STRING_SCHEMA`.  A missing member makes
`jsonpointer` raise. -/
def resourceIdStage (doc : OpenAPI) : Except PyErr OpenAPI :=
  match getSchemas doc with
  | .error e => .error e
  | .ok s =>
    match dictGet? s "datastoreQuery" with
    | none => .error (.jsonPointerError "datastoreQuery")
    | some (.reference _) => .error (.jsonPointerError "properties")
    | some (.object t it d props ao) =>
      match props with
      | none => .error (.jsonPointerError "properties")
      | some pr =>
        match dictGet? pr "resources" with
        | none => .error (.jsonPointerError "resources")
        | some (.reference _) => .error (.jsonPointerError "items")
        | some (.object rt rit rd rprops rao) =>
          match rit with
          | none => .error (.jsonPointerError "items")
          | some (.reference _) => .error (.jsonPointerError "properties")
          | some (.object it2 iit id2 iprops iao) =>
            match iprops with
            | none => .error (.jsonPointerError "properties")
            | some ipr =>
              .ok (setSchemas doc (dictInsert s "datastoreQuery"
                (.object t it d
                  (some (dictInsert pr "resources"
                    (.object rt
                      (some (.object it2 iit id2
                        (some (dictInsert ipr "id" STRING_SCHEMA)) iao))
                      rd rprops rao)))
                  ao)))

/-- The six datastore-query GET paths whose `parameters` arrays are resolved
(remodel.py lines 164-201; pointer order). -/
def datastoreQueryResolveKeys : List String :=
  ["/datastore/query",
   "/datastore/query/download",
   "/datastore/query/{distributionId}",
   "/datastore/query/{distributionId}/download",
   "/datastore/query/{datasetId}/{index}",
   "/datastore/query/{datasetId}/{index}/download"]

/-- The order in which each new parameter is appended to the six arrays
(remodel.py lines 229-238). -/
def datastoreQueryAppendKeys : List String :=
  ["/datastore/query/download",
   "/datastore/query",
   "/datastore/query/{distributionId}",
   "/datastore/query/{distributionId}/download",
   "/datastore/query/{datasetId}/{index}",
   "/datastore/query/{datasetId}/{index}/download"]

/-- The loop variable values of remodel.py lines 203-210. -/
def queryParamNames : List String :=
  ["resources", "properties", "conditions", "joins", "groupings", "sorts"]

/-- remodel.py lines 164-201: the six
`jsonpointer.resolve_pointer(doc, "/paths/.../get/parameters")` calls.  A
missing path item, GET operation or parameters array makes the pointer
resolution (or the later `.append`) raise; on success the document is
untouched. -/
def resolveParamsStage (doc : OpenAPI) : Except PyErr OpenAPI :=
  if datastoreQueryResolveKeys.all (fun k => (paramsAt doc k).isSome) then .ok doc
  else .error (.jsonPointerError "parameters")

/-- remodel.py lines 212-228: the `Parameter` object built for `name`, whose
`description` is copied from
`/components/schemas/datastoreQuery/properties/<name>`. -/
def mkQueryParam (n : String) (d : Option String) : Param :=
  .mk (some n) (some "query") (some false) (some "deepObject")
    (some (.reference ("#/components/schemas/datastoreQuery/properties/" ++ n))) d

/-- Resolve `/components/schemas/datastoreQuery/properties/<name>` and read
its `.description` (an `AttributeError` on a `Reference`), then build the
parameter (remodel.py lines 212-228). -/
def buildQueryParam (comps : Option Components) (n : String) : Except PyErr Param :=
  match comps with
  | none => .error (.jsonPointerError "components")
  | some c =>
    match c.schemas with
    | none => .error (.jsonPointerError "schemas")
    | some s =>
      match dictGet? s "datastoreQuery" with
      | none => .error (.jsonPointerError "datastoreQuery")
      | some (.reference _) => .error (.jsonPointerError "properties")
      | some (.object _ _ _ props _) =>
        match props with
        | none => .error (.jsonPointerError "properties")
        | some pr =>
          match dictGet? pr n with
          | none => .error (.jsonPointerError n)
          | some (.reference _) => .error (.attributeError "description")
          | some (.object _ _ d _ _) => .ok (mkQueryParam n d)

/-- Append one parameter to the GET `parameters` array at path `key`
(one `.append(parameter)` call of remodel.py lines 229-238). -/
def appendParamStage (doc : OpenAPI) (key : String) (p : Param) :
    Except PyErr OpenAPI :=
  match doc.paths with
  | none => .error (.jsonPointerError key)
  | some ps =>
    match dictGet? ps key with
    | none => .error (.jsonPointerError key)
    | some item =>
      match item.get with
      | none => .error (.jsonPointerError key)
      | some op =>
        match op.parameters with
        | none => .error (.attributeError "append")
        | some l =>
          .ok { doc with
                paths := some (dictInsert ps key
                  { item with get := some { op with parameters := some (l ++ [p]) } }) }

/-- Append `p` to each key's GET parameters, in the source's append order. -/
def appendToKeys : List String → OpenAPI → Param → Except PyErr OpenAPI
  | [], doc, _ => .ok doc
  | k :: ks, doc, p => exBind (appendParamStage doc k p) (fun d2 => appendToKeys ks d2 p)

/-- remodel.py lines 202-238: for each parameter name, build the parameter
and append it to all six GET parameter arrays. -/
def queryParamsLoop : List String → OpenAPI → Except PyErr OpenAPI
  | [], doc => .ok doc
  | n :: ns, doc =>
    match buildQueryParam doc.components n with
    | .error e => .error e
    | .ok p => exBind (appendToKeys datastoreQueryAppendKeys doc p)
        (fun d2 => queryParamsLoop ns d2)

/-- The whole datastore-query parameter patch (remodel.py lines 202-238). -/
def queryParamsStage (doc : OpenAPI) : Except PyErr OpenAPI :=
  queryParamsLoop queryParamNames doc

/-- remodel.py lines 254-257: drop a GET description that references the POST
operation. -/
def stripPostDescription (op : Operation) : Operation :=
  match op.description with
  | none => op
  | some d =>
    if (d != "") && strContains d "POST" then { op with description := none } else op

/-- Apply `f` to the GET operation found at `key` (a resolve-then-mutate
pattern of the source); errors model a failing pointer resolution. -/
def modifyPathGet (doc : OpenAPI) (key : String)
    (f : Operation → Except PyErr Operation) : Except PyErr OpenAPI :=
  match doc.paths with
  | none => .error (.jsonPointerError key)
  | some ps =>
    match dictGet? ps key with
    | none => .error (.jsonPointerError key)
    | some item =>
      match item.get with
      | none => .error (.jsonPointerError key)
      | some op =>
        match f op with
        | .error e => .error e
        | .ok op2 =>
          .ok { doc with
                paths := some (dictInsert ps key { item with get := some op2 }) }

/-- Fold `stripPostDescription` over a list of path keys. -/
def stripDescriptionsLoop : List String → OpenAPI → Except PyErr OpenAPI
  | [], doc => .ok doc
  | k :: ks, doc =>
    exBind (modifyPathGet doc k (fun op => .ok (stripPostDescription op)))
      (fun d2 => stripDescriptionsLoop ks d2)

/-- remodel.py lines 239-257: remove POST-referencing descriptions from the
six datastore-query GET operations. -/
def descriptionsStage (doc : OpenAPI) : Except PyErr OpenAPI :=
  stripDescriptionsLoop datastoreQueryResolveKeys doc

/-- remodel.py lines 258-265:
`parameters["datastoreDistributionIndex"].schema.type_ = "integer"`. -/
def distributionIndexStage (doc : OpenAPI) : Except PyErr OpenAPI :=
  match doc.components with
  | none => .error (.attributeError "parameters")
  | some c =>
    match c.parameters with
    | none => .error (.typeError "parameters")
    | some pars =>
      match dictGet? pars "datastoreDistributionIndex" with
      | none => .error (.keyError "datastoreDistributionIndex")
      | some (.reference _) => .error (.attributeError "schema")
      | some (.mk n i r st sch d) =>
        match sch with
        | none => .error (.attributeError "type_")
        | some (.reference _) => .error (.attributeError "type_")
        | some (.object _ it dd prs ao) =>
          .ok { doc with
                components := some { c with
                  parameters := some (dictInsert pars "datastoreDistributionIndex"
                    (.mk n i r st (some (.object (some "integer") it dd prs ao)) d)) } }

/-- remodel.py lines 266-287: wrap the `schema` property of the
`200JsonOrCsvQueryOk` response schema in an `any_of` with an array schema. -/
def jsonOrCsvStage (doc : OpenAPI) : Except PyErr OpenAPI :=
  match doc.components with
  | none => .error (.attributeError "responses")
  | some c =>
    match c.responses with
    | none => .error (.typeError "responses")
    | some rs =>
      match dictGet? rs "200JsonOrCsvQueryOk" with
      | none => .error (.keyError "200JsonOrCsvQueryOk")
      | some resp =>
        match resp.content with
        | none => .error (.typeError "content")
        | some content =>
          match dictGet? content "application/json" with
          | none => .error (.keyError "application/json")
          | some mt =>
            match mt.schema with
            | none => .error (.attributeError "properties")
            | some (.reference _) => .error (.attributeError "properties")
            | some (.object t it d props ao) =>
              match props with
              | none => .error (.typeError "properties")
              | some pr =>
                match dictGet? pr "schema" with
                | none => .error (.keyError "schema")
                | some old =>
                  .ok { doc with
                        components := some { c with
                          responses := some (dictInsert rs "200JsonOrCsvQueryOk"
                            ⟨some (dictInsert content "application/json"
                              ⟨some (.object t it d
                                (some (dictInsert pr "schema"
                                  (.object none none none none
                                    (some [old, .object (some "array") none none none none]))))
                                ao)⟩)⟩) } }

/-- Replace `total` and `results` in a properties mapping per remodel.py
lines 296-309 (`any_of` of string/integer for `total`, object/array for
`results`; `type_` cleared).  Raises when a member is missing or is a
`Reference`. -/
def searchPropsTransform (pr : List (String × Schema)) :
    Except PyErr (List (String × Schema) × Schema × Schema) :=
  match dictGet? pr "total" with
  | none => .error (.keyError "total")
  | some (.reference _) => .error (.attributeError "any_of")
  | some (.object _ tit td tpr _) =>
    match dictGet? pr "results" with
    | none => .error (.keyError "results")
    | some (.reference _) => .error (.attributeError "any_of")
    | some (.object _ rit rd rpr _) =>
      let total2 : Schema := .object none tit td tpr (some [STRING_SCHEMA, INTEGER_SCHEMA])
      let results2 : Schema := .object none rit rd rpr (some [OBJECT_SCHEMA, ARRAY_SCHEMA])
      .ok (dictInsert (dictInsert pr "total" total2) "results" results2, total2, results2)

/-- Rebuild a GET operation whose 200 JSON response schema properties are
transformed by `f` (the resolve pattern of remodel.py lines 289-295). -/
def mapGet200JsonProps (f : List (String × Schema) →
      Except PyErr (List (String × Schema)))
    (op : Operation) : Except PyErr Operation :=
  match op.responses with
  | none => .error (.jsonPointerError "responses")
  | some rs =>
    match dictGet? rs "200" with
    | none => .error (.jsonPointerError "200")
    | some resp =>
      match resp.content with
      | none => .error (.jsonPointerError "content")
      | some content =>
        match dictGet? content "application/json" with
        | none => .error (.jsonPointerError "application/json")
        | some mt =>
          match mt.schema with
          | none => .error (.jsonPointerError "schema")
          | some (.reference _) => .error (.jsonPointerError "properties")
          | some (.object t it d props ao) =>
            match props with
            | none => .error (.jsonPointerError "properties")
            | some pr =>
              match f pr with
              | .error e => .error e
              | .ok pr2 =>
                .ok { op with
                      responses := some (dictInsert rs "200"
                        ⟨some (dictInsert content "application/json"
                          ⟨some (.object t it d (some pr2) ao)⟩)⟩) }

/-- remodel.py lines 288-309: fix the `/search` GET response `total` and
`results` data types. -/
def searchStage (doc : OpenAPI) : Except PyErr OpenAPI :=
  modifyPathGet doc "/search"
    (mapGet200JsonProps (fun pr =>
      match searchPropsTransform pr with
      | .error e => .error e
      | .ok (pr2, _, _) => .ok pr2))

/-- Read the (already transformed) `total` and `results` schemas back out of
the `/search` GET response properties. -/
def searchProps (doc : OpenAPI) : Except PyErr (Schema × Schema) :=
  match pathsLookup doc "/search" with
  | none => .error (.jsonPointerError "/search")
  | some item =>
    match item.get with
    | none => .error (.jsonPointerError "get")
    | some op =>
      match op.responses with
      | none => .error (.jsonPointerError "responses")
      | some rs =>
        match dictGet? rs "200" with
        | none => .error (.jsonPointerError "200")
        | some resp =>
          match resp.content with
          | none => .error (.jsonPointerError "content")
          | some content =>
            match dictGet? content "application/json" with
            | none => .error (.jsonPointerError "application/json")
            | some mt =>
              match mt.schema with
              | none => .error (.jsonPointerError "schema")
              | some (.reference _) => .error (.jsonPointerError "properties")
              | some (.object _ _ _ props _) =>
                match props with
                | none => .error (.jsonPointerError "properties")
                | some pr =>
                  match dictGet? pr "results" with
                  | none => .error (.keyError "results")
                  | some results =>
                    match dictGet? pr "total" with
                    | none => .error (.keyError "total")
                    | some total => .ok (total, results)

/-- remodel.py lines 310-323: copy the fixed `results` and `total` schemas
into the `/search/facets` GET response properties. -/
def searchFacetsStage (doc : OpenAPI) : Except PyErr OpenAPI :=
  match searchProps doc with
  | .error e => .error e
  | .ok (total, results) =>
    modifyPathGet doc "/search/facets"
      (mapGet200JsonProps (fun pr =>
        .ok (dictInsert (dictInsert pr "results" results) "total" total)))

/-- remodel.py lines 324-335: fix the `total` member of
`/components/schemas/facets/items/properties`. -/
def facetsItemsStage (doc : OpenAPI) : Except PyErr OpenAPI :=
  match getSchemas doc with
  | .error e => .error e
  | .ok s =>
    match dictGet? s "facets" with
    | none => .error (.jsonPointerError "facets")
    | some (.reference _) => .error (.jsonPointerError "items")
    | some (.object t it d props ao) =>
      match it with
      | none => .error (.jsonPointerError "items")
      | some (.reference _) => .error (.jsonPointerError "properties")
      | some (.object it2 iit id2 iprops iao) =>
        match iprops with
        | none => .error (.jsonPointerError "properties")
        | some ipr =>
          match dictGet? ipr "total" with
          | none => .error (.keyError "total")
          | some (.reference _) => .error (.attributeError "any_of")
          | some (.object _ tit td tpr _) =>
            .ok (setSchemas doc (dictInsert s "facets"
              (.object t
                (some (.object it2 iit id2
                  (some (dictInsert ipr "total"
                    (.object none tit td tpr (some [STRING_SCHEMA, INTEGER_SCHEMA]))))
                  iao))
                d props ao)))

/-- `fix_provider_data_openapi` (remodel.py lines 82-335): the stages in
source order, aborting at the first uncaught exception. -/
def fix_provider_data_openapi (doc : OpenAPI) : Except PyErr OpenAPI :=
  exBind (datasetsSchemaStage (addServerStage doc)) (fun d2 =>
  exBind (renameStage d2) (fun d3 =>
  exBind (duplicateStage d3) (fun d4 =>
  exBind (landingPageStage d4) (fun d5 =>
  exBind (resourceIdStage d5) (fun d6 =>
  exBind (resolveParamsStage d6) (fun d7 =>
  exBind (queryParamsStage d7) (fun d8 =>
  exBind (descriptionsStage d8) (fun d9 =>
  exBind (distributionIndexStage d9) (fun d10 =>
  exBind (jsonOrCsvStage d10) (fun d11 =>
  exBind (searchStage d11) (fun d12 =>
  exBind (searchFacetsStage d12) (fun d13 =>
  facetsItemsStage d13))))))))))))

/-! ### Models of the external parsing and serialisation libraries

`download` and `get_openapi` branch on whether `json.loads` and
`yaml.safe_load` succeed, on `str.startswith`, and on `pathlib` suffixes.
The JSON model below implements the JSON grammar over objects, arrays,
strings (escape sequences are not modelled), integers (floats and exponents
are not modelled) and the three literals; this covers every input the
claims and their witnesses touch. -/

/-- JSON values as produced by the modelled `json.loads`. -/
inductive Json where
  | null
  | bool (b : Bool)
  | num (n : Int)
  | str (s : String)
  | arr (xs : List Json)
  | obj (kvs : List (String × Json))

/-- JSON whitespace skipping. -/
def skipWs : List Char → List Char
  | [] => []
  | c :: cs => if c = ' ' || c = '\n' || c = '\t' || c = '\r' then skipWs cs else c :: cs

def isDigitChar (c : Char) : Bool := ('0' ≤ c) && (c ≤ '9')

def digitsToNat (acc : Nat) : List Char → Nat
  | [] => acc
  | c :: cs => digitsToNat (acc * 10 + (c.toNat - '0'.toNat)) cs

/-- Parse a run of digits as a natural number, returning the rest. -/
def pjNum (cs : List Char) : Option (Nat × List Char) :=
  let ds := cs.takeWhile isDigitChar
  if ds.isEmpty then none else some (digitsToNat 0 ds, cs.drop ds.length)

/-- Parse a JSON string body after the opening quote (no escape handling). -/
def pjStringBody (cs : List Char) : Option (String × List Char) :=
  let content := cs.takeWhile (fun c => c ≠ '"')
  match cs.drop content.length with
  | '"' :: r => some (⟨content⟩, r)
  | _ => none

mutual

/-- Fuel-indexed recursive-descent JSON value parse. -/
def pjVal : Nat → List Char → Option (Json × List Char)
  | 0, _ => none
  | Nat.succ fuel, cs0 =>
    match skipWs cs0 with
    | [] => none
    | '{' :: rest =>
      (match skipWs rest with
       | '}' :: r2 => some (.obj [], r2)
       | cs => pjObjItems fuel cs [])
    | '[' :: rest =>
      (match skipWs rest with
       | ']' :: r2 => some (.arr [], r2)
       | cs => pjArrItems fuel cs [])
    | '"' :: rest =>
      (match pjStringBody rest with
       | some (s, r) => some (.str s, r)
       | none => none)
    | '-' :: rest =>
      (match pjNum rest with
       | some (n, r) => some (.num (-(n : Int)), r)
       | none => none)
    | 't' :: rest =>
      if ['r', 'u', 'e'].isPrefixOf rest then some (.bool true, rest.drop 3) else none
    | 'f' :: rest =>
      if ['a', 'l', 's', 'e'].isPrefixOf rest then some (.bool false, rest.drop 4) else none
    | 'n' :: rest =>
      if ['u', 'l', 'l'].isPrefixOf rest then some (.null, rest.drop 3) else none
    | c :: rest =>
      if isDigitChar c then
        match pjNum (c :: rest) with
        | some (n, r) => some (.num (n : Int), r)
        | none => none
      else none

/-- Parse the remaining elements of a non-empty JSON array. -/
def pjArrItems : Nat → List Char → List Json → Option (Json × List Char)
  | 0, _, _ => none
  | Nat.succ fuel, cs, acc =>
    match pjVal fuel cs with
    | none => none
    | some (v, rest) =>
      match skipWs rest with
      | ',' :: r2 => pjArrItems fuel r2 (acc ++ [v])
      | ']' :: r2 => some (.arr (acc ++ [v]), r2)
      | _ => none

/-- Parse the remaining members of a non-empty JSON object. -/
def pjObjItems : Nat → List Char → List (String × Json) → Option (Json × List Char)
  | 0, _, _ => none
  | Nat.succ fuel, cs, acc =>
    match skipWs cs with
    | '"' :: rest =>
      (match pjStringBody rest with
       | none => none
       | some (k, r1) =>
         match skipWs r1 with
         | ':' :: r2 =>
           (match pjVal fuel r2 with
            | none => none
            | some (v, rest2) =>
              match skipWs rest2 with
              | ',' :: r3 => pjObjItems fuel r3 (acc ++ [(k, v)])
              | '}' :: r3 => some (.obj (acc ++ [(k, v)]), r3)
              | _ => none)
         | _ => none)
    | _ => none

end

/-- Model of `json.loads`: parse a full document, allowing trailing
whitespace only. -/
def jsonLoads (s : String) : Option Json :=
  match pjVal (2 * s.length + 4) s.data with
  | none => none
  | some (v, rest) =>
    match skipWs rest with
    | [] => some v
    | _ => none

/-- `4 * lvl` spaces. -/
def indentStr (lvl : Nat) : String := ⟨List.replicate (4 * lvl) ' '⟩

mutual

/-- Model of `json.dumps(v, indent=4)` (strings rendered verbatim, matching
the escape-free parse model). -/
def dumpJson : Nat → Json → String
  | _, .null => "null"
  | _, .bool true => "true"
  | _, .bool false => "false"
  | _, .num n => toString n
  | _, .str s => "\"" ++ s ++ "\""
  | _, .arr [] => "[]"
  | lvl, .arr (x :: xs) =>
    "[\n" ++ dumpArrItems (lvl + 1) x xs ++ "\n" ++ indentStr lvl ++ "]"
  | _, .obj [] => "\x7b\x7d"
  | lvl, .obj ((k, v) :: kvs) =>
    "\x7b\n" ++ dumpObjItems (lvl + 1) k v kvs ++ "\n" ++ indentStr lvl ++ "\x7d"
termination_by _ j => sizeOf j
decreasing_by
  all_goals simp_wf
  all_goals omega

def dumpArrItems : Nat → Json → List Json → String
  | lvl, x, [] => indentStr lvl ++ dumpJson lvl x
  | lvl, x, y :: ys => indentStr lvl ++ dumpJson lvl x ++ ",\n" ++ dumpArrItems lvl y ys
termination_by _ x xs => sizeOf x + sizeOf xs
decreasing_by
  all_goals simp_wf
  all_goals omega

def dumpObjItems : Nat → String → Json → List (String × Json) → String
  | lvl, k, v, [] => indentStr lvl ++ "\"" ++ k ++ "\": " ++ dumpJson lvl v
  | lvl, k, v, (k2, v2) :: kvs =>
    indentStr lvl ++ "\"" ++ k ++ "\": " ++ dumpJson lvl v ++ ",\n"
      ++ dumpObjItems lvl k2 v2 kvs
termination_by _ _ v kvs => sizeOf v + sizeOf kvs
decreasing_by
  all_goals simp_wf
  all_goals omega

end

/-- `json.dumps(v, indent=4)` as called by `download` (remodel.py line 375). -/
def jsonDumpsIndent4 (v : Json) : String := dumpJson 0 v

/-- Model of `yaml.safe_load`'s success or failure only (the parsed value is
not modelled: the script never inspects it).  PyYAML accepts nearly any
scalar, so the model succeeds except when the input starts with a tab, which
the PyYAML scanner rejects ("found character that cannot start any token"). -/
def yamlSafeLoad (s : String) : Option Unit :=
  match s.data with
  | '\t' :: _ => none
  | _ => some ()

/-! ### `pathlib` suffix handling -/

/-- The final path component (characters after the last `/`). -/
def pathName (p : String) : String :=
  ⟨(p.data.reverse.takeWhile (fun c => c ≠ '/')).reverse⟩

/-- `PurePath.suffix`: the last dot-suffix of the final component, empty when
the only dot is leading (hidden file) or trailing, or there is none. -/
def pathSuffix (p : String) : String :=
  let name := (p.data.reverse.takeWhile (fun c => c ≠ '/')).reverse
  let afterRev := name.reverse.takeWhile (fun c => c ≠ '.')
  if afterRev.length = name.length then ""
  else if afterRev.length = 0 then ""
  else if name.length - afterRev.length - 1 = 0 then ""
  else ⟨'.' :: afterRev.reverse⟩

/-- remodel.py lines 357-365: `data.startswith(("{", "[", "\"", "0".."9"))`. -/
def jsonLikeStart (s : String) : Bool :=
  match s.data with
  | [] => false
  | c :: _ => (c = '{') || (c = '[') || (c = '"') || isDigitChar c

/-- What `download` returns and writes. -/
structure DownloadResult where
  path : String
  content : String

/-- remodel.py lines 350-372: the target path after extension selection. -/
def downloadPath (data : String) (path0 : String) : String :=
  if strToLower (pathSuffix path0) = ".json" ∨ strToLower (pathSuffix path0) = ".yaml"
      ∨ strToLower (pathSuffix path0) = ".yml" then path0
  else
    match jsonLoads data with
    | some _ => path0 ++ ".json"
    | none =>
      match yamlSafeLoad data with
      | some _ => path0 ++ ".yaml"
      | none => if jsonLikeStart data then path0 ++ ".json" else path0 ++ ".yaml"

/-- remodel.py lines 373-375: the content written (pretty-printed for a
`.json` target when the data parses). -/
def downloadContent (data : String) (path : String) : String :=
  if strToLower (pathSuffix path) = ".json" then
    match jsonLoads data with
    | some v => jsonDumpsIndent4 v
    | none => data
  else data

/-- `download` (remodel.py lines 338-378), modelled on the already-downloaded
response body `data` and the absolutised path string (`Path(path).absolute()`
itself is not modelled; the `urlopen` read is the `data` argument).  Chooses
an extension when the given one is not recognised, pretty-prints JSON content
for `.json` targets, and writes. -/
def download (data : String) (path0 : String) : DownloadResult :=
  ⟨downloadPath data path0, downloadContent data (downloadPath data path0)⟩

/-! ### `fix_openapi_data` and `get_openapi` (remodel.py lines 48-79) -/

/-- remodel.py lines 48-56: returns its input unchanged. -/
def fix_openapi_data (data : String) : String := data

/-- Which parser `get_openapi` hands the file content to, with its outcome
(the construction of `oapi.oas.OpenAPI` from the parsed dictionary is
external and not modelled). -/
inductive ParseOutcome where
  | asYaml (r : Option Unit)
  | asJson (r : Option Json)

/-- `get_openapi` (remodel.py lines 59-79) on a path string and the on-disk
content of that file: read, apply `fix_openapi_data`, then parse as YAML for
`.yaml`/`.yml` names (case-insensitively) and as JSON otherwise. -/
def get_openapi (openapi_document_path : String) (content : String) : ParseOutcome :=
  let lower := strToLower openapi_document_path
  let fixed := fix_openapi_data content
  if strEnds lower ".yaml" || strEnds lower ".yml" then .asYaml (yamlSafeLoad fixed)
  else .asJson (jsonLoads fixed)

/-- The spec's reading of `get_openapi`: parse exactly the on-disk content,
selecting the parser by the file name's extension. -/
def get_openapi_direct (openapi_document_path : String) (content : String) :
    ParseOutcome :=
  let lower := strToLower openapi_document_path
  if strEnds lower ".yaml" || strEnds lower ".yml" then .asYaml (yamlSafeLoad content)
  else .asJson (jsonLoads content)

/-! ### `update_openapi_original`, `update_model`, `update_client`, `main`
(remodel.py lines 381-506)

File writes, the generator calls and the fix application are recorded as an
event trace; parsing the downloaded original into an `oapi.oas.OpenAPI`
object and the `sob` serialisation round-trip of `fixed.json` are external
library work, modelled by the `parsedDoc` argument and by storing the
document value itself for `fixed.json`. -/

/-- Python `s.rstrip("/")`. -/
def pyRstripSlash (s : String) : String :=
  ⟨(s.data.reverse.dropWhile (fun c => c = '/')).reverse⟩

/-- `s.rpartition(c)[-1]`: the part after the last `c`, or all of `s` when
`c` does not occur. -/
def rpartTail (s : String) (c : Char) : String :=
  ⟨(s.data.reverse.takeWhile (fun x => x ≠ c)).reverse⟩

/-- `s.rpartition(c)[0]`: the part before the last `c`, or `""` when `c`
does not occur. -/
def rpartHead (s : String) (c : Char) : String :=
  if s.data.contains c then
    ⟨((s.data.reverse.dropWhile (fun x => x ≠ c)).drop 1).reverse⟩
  else ""

/-- `urlparse(url).query`: the text after the first `?`, cut at `#`. -/
def urlQuery (url : String) : String :=
  if url.data.contains '?' then
    ⟨((url.data.dropWhile (fun c => c ≠ '?')).drop 1).takeWhile (fun c => c ≠ '#')⟩
  else ""

/-- `parse_qs(q).get(k, ...)[0]`: first value bound to `k` among the `k=v`
pairs of the query string (blank values are dropped, as `parse_qs` does by
default). -/
def qsFirst (q : String) (k : String) : Option String :=
  match (q.splitOn "&").filterMap (fun part =>
    if part.data.contains '=' then
      let key : String := ⟨part.data.takeWhile (fun c => c ≠ '=')⟩
      let v : String := ⟨(part.data.dropWhile (fun c => c ≠ '=')).drop 1⟩
      if v = "" then none else some (key, v)
    else none) with
  | pairs => dictGet? pairs k

/-- remodel.py lines 382-403: determine the download format from the URL
(trailing file extension, else a `format`/`format_` query parameter). -/
def detectFormat (url : String) : Option String :=
  let seg := rpartTail (pyRstripSlash url) '/'
  let base := rpartHead seg '.'
  if base ≠ "" then some (strToLower (rpartTail seg '.'))
  else
    let q := urlQuery url
    if q ≠ "" then
      match qsFirst q "format" with
      | some f => some f
      | none => qsFirst q "format_"
    else none

/-- remodel.py lines 404-406: the extension used for the `original` file. -/
def formatExtension (fmt : Option String) : String :=
  match fmt with
  | some f => if f = "json" ∨ f = "yaml" ∨ f = "yml" then "." ++ f else ""
  | none => ""

/-- The observable side effects of one `main()` run. -/
inductive Event where
  | downloadFile (url : String) (path : String)
  | parseOriginal (path : String)
  | applyFix
  | writeFixed (path : String) (doc : OpenAPI)
  | generateModelModule (path : String) (doc : OpenAPI)
  | readFixed (path : String)
  | generateClientModule (path : String) (urlDefault : String)
      (retryAttempts : Nat)

/-- remodel.py lines 23-36: module-level configuration tables (paths relative
to the project root). -/
def PROVIDER_DATA_V1 : String := "provider_data/v1"

def OPENAPI_DOCUMENT_URL : List (String × String) :=
  [(PROVIDER_DATA_V1, "https://data.cms.gov/provider-data/api/1")]

def MODEL_PY : List (String × String) :=
  [(PROVIDER_DATA_V1, "src/cmsgov/provider_data/v1/model.py")]

def CLIENT_PY : List (String × String) :=
  [(PROVIDER_DATA_V1, "src/cmsgov/provider_data/v1/client.py")]

/-- remodel.py lines 381-411: download the source document to
`openapi/<name>/original[.ext]`; `data` is the response body. -/
def update_openapi_original (name : String) (data : String) :
    Except PyErr (List Event × String) :=
  match dictGet? OPENAPI_DOCUMENT_URL name with
  | none => .error (.keyError name)
  | some url =>
    let ext := formatExtension (detectFormat url)
    let r := download data ("openapi/" ++ name ++ "/original" ++ ext)
    .ok ([.downloadFile url r.path], r.path)

/-- The outcome of `update_model`. -/
structure ModelRun where
  events : List Event
  fixedPath : String
  fixedDoc : OpenAPI
  modelPy : String

/-- `update_model` (remodel.py lines 414-453): download, parse, apply the fix
callback when given, write `fixed.json`, generate the model module. -/
def update_model (name : String) (fixCb : Option (OpenAPI → Except PyErr OpenAPI))
    (data : String) (parsedDoc : OpenAPI) : Except PyErr ModelRun :=
  match update_openapi_original name data with
  | .error e => .error e
  | .ok (ev1, originalPath) =>
    match ((match fixCb with
            | some f =>
              (match f parsedDoc with
               | .error e => .error e
               | .ok d => .ok (d, [Event.applyFix]))
            | none => .ok (parsedDoc, ([] : List Event)))
           : Except PyErr (OpenAPI × List Event)) with
    | .error e => .error e
    | .ok (doc2, evFix) =>
      let fixedPath := "openapi/" ++ name ++ "/fixed.json"
      match dictGet? MODEL_PY name with
      | none => .error (.keyError name)
      | some modelPy =>
        .ok ⟨ev1 ++ [Event.parseOriginal originalPath] ++ evFix
              ++ [Event.writeFixed fixedPath doc2,
                  Event.generateModelModule modelPy doc2],
             fixedPath, doc2, modelPy⟩

/-- `update_client` (remodel.py lines 456-501): read `fixed.json` back (the
store maps file paths to the documents their serialised contents parse to)
and generate the client module with `url` defaulting to the first server's
url and `retry_number_of_attempts` defaulting to `3`. -/
def update_client (name : String) (store : List (String × OpenAPI)) :
    Except PyErr (List Event) :=
  let fixedPath := "openapi/" ++ name ++ "/fixed.json"
  match dictGet? store fixedPath with
  | none => .error (.keyError fixedPath)
  | some doc =>
    match dictGet? CLIENT_PY name with
    | none => .error (.keyError name)
    | some clientPy =>
      .ok [.readFixed fixedPath, .generateClientModule clientPy (firstServerUrl doc) 3]

/-- `main` (remodel.py lines 504-506). -/
def main (data : String) (parsedDoc : OpenAPI) : Except PyErr (List Event) :=
  match update_model PROVIDER_DATA_V1 (some fix_provider_data_openapi) data parsedDoc with
  | .error e => .error e
  | .ok r =>
    match update_client PROVIDER_DATA_V1 [(r.fixedPath, r.fixedDoc)] with
    | .error e => .error e
    | .ok ev2 => .ok (r.events ++ ev2)

/-! ### The unauthenticated-mutation test pattern
(tests/test_provider_data.py) -/

/-- The observable outcome of one generated-client call: it returns, or it
raises `urllib.error.HTTPError` with a status code.  (Other exception types
are not caught by the tests and need no distinct constructor.) -/
inductive CallOutcome where
  | ok
  | httpError (code : Nat)

/-- How a test function ends. -/
inductive TestOutcome where
  | passed
  | raisedHttpError (code : Nat)
  | raisedRuntimeError (msg : String)

/-- The shared `try/except HTTPError/else` shape of the unauthenticated
mutation tests: re-raise the `HTTPError` unless its code is the expected
one; raise `RuntimeError(message)` when the call succeeds. -/
def expectUnauthenticated (expected : Nat) (message : String) :
    CallOutcome → TestOutcome
  | .ok => .raisedRuntimeError message
  | .httpError c => if c ≠ expected then .raisedHttpError c else .passed

/-- test_provider_data.py lines 66-88 (the preliminary GET is outside the
`try` block, so its errors propagate). -/
def test_put_metastore_schemas_dataset_items_identifier
    (getResult putResult : CallOutcome) : TestOutcome :=
  match getResult with
  | .httpError c => .raisedHttpError c
  | .ok => expectUnauthenticated 501
      "Attempting to create a dataset unauthenticated should result in a 501 error"
      putResult

/-- test_provider_data.py lines 91-116. -/
def test_patch_metastore_schemas_dataset_items_identifier
    (getResult patchResult : CallOutcome) : TestOutcome :=
  match getResult with
  | .httpError c => .raisedHttpError c
  | .ok => expectUnauthenticated 501
      "Attempting to update a dataset unauthenticated should result in a 501 error"
      patchResult

/-- test_provider_data.py lines 119-139. -/
def test_put_metastore_schemas_dataset_items
    (getResult putResult : CallOutcome) : TestOutcome :=
  match getResult with
  | .httpError c => .raisedHttpError c
  | .ok => expectUnauthenticated 501
      "Attempting to create a dataset unauthenticated should result in a 501 error"
      putResult

/-- test_provider_data.py lines 142-167. -/
def test_patch_metastore_schemas_dataset_items
    (getResult patchResult : CallOutcome) : TestOutcome :=
  match getResult with
  | .httpError c => .raisedHttpError c
  | .ok => expectUnauthenticated 501
      "Attempting to update a dataset unauthenticated should result in a 501 error"
      patchResult

/-- test_provider_data.py lines 196-213. -/
def test_client_get_datastore_imports (callResult : CallOutcome) : TestOutcome :=
  expectUnauthenticated 401
    "Attempting to retrieve all datastores unauthenticated should result in a 401 error"
    callResult

/-- test_provider_data.py lines 216-233. -/
def test_client_post_datastore_imports (callResult : CallOutcome) : TestOutcome :=
  expectUnauthenticated 401
    "Attempting to retrieve all datastores unauthenticated should result in a 401 error"
    callResult

/-- test_provider_data.py lines 535-550. -/
def test_get_harvest_plans (callResult : CallOutcome) : TestOutcome :=
  expectUnauthenticated 401
    "Attempting to retrieve all harvest plans should result in a 401 error"
    callResult

/-- test_provider_data.py lines 553-580. -/
def test_post_harvest_plans (callResult : CallOutcome) : TestOutcome :=
  expectUnauthenticated 401
    "Attempting to create a harvest plan should result in a 401 error"
    callResult

/-- test_provider_data.py lines 583-598. -/
def test_get_harvest_plans_plan_id (callResult : CallOutcome) : TestOutcome :=
  expectUnauthenticated 401
    "Attempting to get a harvest plan unauthenticated should result in a 401 error"
    callResult

/-- test_provider_data.py lines 601-616. -/
def test_get_harvest_runs (callResult : CallOutcome) : TestOutcome :=
  expectUnauthenticated 401
    "Attempting to get harvest runs unauthenticated should result in a 401 error"
    callResult

/-- test_provider_data.py lines 619-634. -/
def test_get_harvest_runs_run_id (callResult : CallOutcome) : TestOutcome :=
  expectUnauthenticated 401
    "Attempting to get a harvest run unauthenticated should result in a 401 error"
    callResult

/-- test_provider_data.py lines 637-656. -/
def test_post_harvest_runs (callResult : CallOutcome) : TestOutcome :=
  expectUnauthenticated 401
    "Attempting to post a harvest run unauthenticated should result in a 401 error"
    callResult

/-! ### Projections used in theorem statements -/

/-- The `responses["200"].content["application/json"].schema` chain as an
optional projection. -/
def responses200JsonSchema (rs : List (String × Response)) : Option Schema :=
  match dictGet? rs "200" with
  | none => none
  | some resp =>
    match resp.content with
    | none => none
    | some content =>
      match dictGet? content "application/json" with
      | none => none
      | some mt => mt.schema

/-! ### Concrete documents used by witnesses and counterexamples -/

def emptyPathItem : PathItem := ⟨none, none, none, none, none⟩

def opA : Operation := ⟨some "A", none, none, none⟩

def opB : Operation := ⟨some "B", none, none, none⟩

def itemA : PathItem := ⟨none, some opA, none, none, none⟩

def itemB : PathItem := ⟨none, some opB, none, none, none⟩

/-- Two path keys whose rename targets collide: stripping the prefix from the
first yields exactly the second key. -/
def collidingPaths : List (String × PathItem) :=
  [("/provider-data/api/1/provider-data/api/1/x", itemA),
   ("/provider-data/api/1/x", itemB)]

def collidingDoc : OpenAPI := ⟨none, none, some collidingPaths⟩

/-- A well-formed rename input: all keys prefixed, no collisions. -/
def plainRenamePaths : List (String × PathItem) :=
  [("/provider-data/api/1/a", itemA), ("/provider-data/api/1/b", itemB)]

def plainRenameDoc : OpenAPI := ⟨none, none, some plainRenamePaths⟩

/-- A document whose path keys are not all `/provider-data/api/1/`-prefixed
but whose components allow the earlier stages to succeed. -/
def badPathDoc : OpenAPI :=
  ⟨none, some ⟨some [], none, none⟩, some [("/bad-path", itemA)]⟩

/-- GET operation of the single-dataset metastore path in the witness
document. -/
def miniMetastoreGet : Operation :=
  { summary := some "Get a single dataset."
    description := none
    parameters := some
      [Param.reference "#/components/parameters/datasetUuid",
       Param.mk (some "show-reference-ids") (some "query") (some false) none none none]
    responses := some
      [("200", ⟨some [("application/json",
        ⟨some (.reference "#/components/schemas/dataset")⟩)]⟩)] }

def miniMetastoreItem : PathItem :=
  ⟨some miniMetastoreGet, some opA, none, some opB, none⟩

/-- GET operation of each datastore-query path in the witness document. -/
def miniQueryGet : Operation :=
  { summary := none
    description := some "See the POST endpoint."
    parameters := some []
    responses := none }

def miniQueryItem : PathItem := ⟨some miniQueryGet, none, none, none, none⟩

def miniSearchGet : Operation :=
  { summary := none
    description := none
    parameters := none
    responses := some
      [("200", ⟨some [("application/json",
        ⟨some (.object (some "object") none none
          (some [("total", .object (some "string") none none none none),
                 ("results", .object (some "object") none none none none)])
          none)⟩)]⟩)] }

def miniFacetsGet : Operation :=
  { summary := none
    description := none
    parameters := none
    responses := some
      [("200", ⟨some [("application/json",
        ⟨some (.object (some "object") none none (some []) none)⟩)]⟩)] }

def miniQueryPropSchema (d : String) : Schema :=
  .object (some "array") none (some d) none none

def miniSchemas : List (String × Schema) :=
  [("dataset", .object (some "object") none none (some []) none),
   ("datastoreQuery", .object (some "object") none none
     (some [("resources",
              .object (some "array")
                (some (.object (some "object") none none (some []) none))
                (some "Resources used in the query.") none none),
            ("properties", miniQueryPropSchema "Properties returned."),
            ("conditions", miniQueryPropSchema "Conditions applied."),
            ("joins", miniQueryPropSchema "Joins applied."),
            ("groupings", miniQueryPropSchema "Groupings applied."),
            ("sorts", miniQueryPropSchema "Sort order.")])
     none),
   ("facets", .object (some "array")
     (some (.object (some "object") none none
       (some [("total", .object (some "integer") none none none none)]) none))
     none none none)]

def miniComponentParameters : List (String × Param) :=
  [("datastoreDistributionIndex",
    Param.mk (some "index") (some "path") (some true) none
      (some (.object (some "string") none none none none)) none)]

def miniComponentResponses : List (String × Response) :=
  [("200JsonOrCsvQueryOk",
    ⟨some [("application/json",
      ⟨some (.object (some "object") none none
        (some [("schema", .object (some "object") none none none none)])
        none)⟩)]⟩)]

/-- A small but complete source document on which every stage of
`fix_provider_data_openapi` succeeds. -/
def miniDoc : OpenAPI :=
  { servers := none
    components := some
      ⟨some miniSchemas, some miniComponentParameters, some miniComponentResponses⟩
    paths := some
      [("/provider-data/api/1/metastore/schemas/dataset/items/{identifier}",
        miniMetastoreItem),
       ("/provider-data/api/1/datastore/query", miniQueryItem),
       ("/provider-data/api/1/datastore/query/download", miniQueryItem),
       ("/provider-data/api/1/datastore/query/{distributionId}", miniQueryItem),
       ("/provider-data/api/1/datastore/query/{distributionId}/download", miniQueryItem),
       ("/provider-data/api/1/datastore/query/{datasetId}/{index}", miniQueryItem),
       ("/provider-data/api/1/datastore/query/{datasetId}/{index}/download",
        miniQueryItem),
       ("/provider-data/api/1/search", ⟨some miniSearchGet, none, none, none, none⟩),
       ("/provider-data/api/1/search/facets",
        ⟨some miniFacetsGet, none, none, none, none⟩)] }

/-- The result of fixing the witness document. -/
def miniFixed : OpenAPI :=
  match fix_provider_data_openapi miniDoc with
  | .ok d => d
  | .error _ => miniDoc

/-! ## Lemmas -/

theorem dictGet?_insert_self {α : Type} (d : List (String × α)) (k : String) (v : α) :
    dictGet? (dictInsert d k v) k = some v := by
  induction d with
  | nil => simp [dictInsert, dictGet?]
  | cons hd tl ih =>
    obtain ⟨k0, v0⟩ := hd
    by_cases h : k0 = k
    · simp [dictInsert, dictGet?, h]
    · simp [dictInsert, dictGet?, h, ih]

theorem dictGet?_insert_ne {α : Type} (d : List (String × α)) {k k2 : String}
    (v : α) (h : k2 ≠ k) : dictGet? (dictInsert d k v) k2 = dictGet? d k2 := by
  induction d with
  | nil =>
    simp only [dictInsert, dictGet?]
    rw [if_neg (fun e => h (Eq.symm e))]
  | cons hd tl ih =>
    obtain ⟨k0, v0⟩ := hd
    by_cases hk : k0 = k
    · subst hk
      simp only [dictInsert, if_pos rfl, dictGet?]
      rw [if_neg (fun e => h (Eq.symm e)), if_neg (fun e => h (Eq.symm e))]
    · simp only [dictInsert, if_neg hk, dictGet?, ih]

theorem dictGet?_erase_ne {α : Type} (d : List (String × α)) {k k2 : String}
    (h : k2 ≠ k) : dictGet? (dictErase d k) k2 = dictGet? d k2 := by
  induction d with
  | nil => simp [dictErase]
  | cons hd tl ih =>
    obtain ⟨k0, v0⟩ := hd
    by_cases hk : k0 = k
    · subst hk
      have he : dictErase ((k0, v0) :: tl) k0 = tl := by simp [dictErase]
      rw [he]
      simp only [dictGet?]
      rw [if_neg (fun e => h (Eq.symm e))]
    · simp only [dictErase, if_neg hk, dictGet?, ih]

theorem dictGet?_isSome_of_mem {α : Type} {d : List (String × α)} {k : String}
    (h : k ∈ d.map Prod.fst) : (dictGet? d k).isSome = true := by
  induction d with
  | nil => simp at h
  | cons hd tl ih =>
    obtain ⟨k0, v0⟩ := hd
    by_cases hk : k0 = k
    · simp [dictGet?, hk]
    · simp only [List.map_cons, List.mem_cons] at h
      rcases h with h | h

      · exact absurd h.symm hk
      · simp [dictGet?, hk, ih h]

theorem dictInsert_of_not_mem {α : Type} {d : List (String × α)} {k : String}
    (v : α) (h : k ∉ d.map Prod.fst) : dictInsert d k v = d ++ [(k, v)] := by
  induction d with
  | nil => simp [dictInsert]
  | cons hd tl ih =>
    obtain ⟨k0, v0⟩ := hd
    simp only [List.map_cons, List.mem_cons] at h
    push_neg at h
    simp only [dictInsert]
    rw [if_neg (fun e => h.1 (Eq.symm e)), ih h.2]
    rfl

theorem dictErase_cons_self {α : Type} (d : List (String × α)) (k : String) (v : α) :
    dictErase ((k, v) :: d) k = d := by
  simp [dictErase]

theorem stringDataInj {a b : String} (h : a.data = b.data) : a = b := by
  obtain ⟨da⟩ := a
  obtain ⟨db⟩ := b
  have hd : da = db := h
  rw [hd]

theorem strStarts_iff (s pre : String) :
    strStarts s pre = true ↔ ∃ t, s.data = pre.data ++ t := by
  unfold strStarts
  rw [List.isPrefixOf_iff_prefix]
  constructor
  · rintro ⟨t, ht⟩
    exact ⟨t, ht.symm⟩
  · rintro ⟨t, ht⟩
    exact ⟨t, ht.symm⟩

theorem oldPathStart_drop20 : oldPathStart.data.drop 20 = ['/'] := by decide

theorem oldPathStart_len : 20 ≤ oldPathStart.data.length := by decide

theorem drop20_data {k : String} (t : List Char)
    (h : k.data = oldPathStart.data ++ t) :
    (strDropChars k 20).data = '/' :: t := by
  show (k.data.drop 20) = '/' :: t
  rw [h, List.drop_append_of_le_length oldPathStart_len, oldPathStart_drop20]
  rfl

theorem drop20_startsSlash {k : String} (h : strStarts k oldPathStart = true) :
    strStarts (strDropChars k 20) "/" = true := by
  obtain ⟨t, ht⟩ := (strStarts_iff _ _).1 h
  rw [strStarts_iff]
  exact ⟨t, drop20_data t ht⟩

theorem drop20_inj {k1 k2 : String} (h1 : strStarts k1 oldPathStart = true)
    (h2 : strStarts k2 oldPathStart = true)
    (h : strDropChars k1 20 = strDropChars k2 20) : k1 = k2 := by
  obtain ⟨t1, ht1⟩ := (strStarts_iff _ _).1 h1
  obtain ⟨t2, ht2⟩ := (strStarts_iff _ _).1 h2
  have hd := congrArg String.data h
  rw [drop20_data t1 ht1, drop20_data t2 ht2] at hd
  apply stringDataInj
  rw [ht1, ht2]
  simp only [List.cons.injEq] at hd
  rw [hd.2]

theorem exBind_ok {x : Except PyErr OpenAPI} {f : OpenAPI → Except PyErr OpenAPI}
    {out : OpenAPI} (h : exBind x f = .ok out) :
    ∃ d, x = .ok d ∧ f d = .ok out := by
  cases x with
  | error e => exact absurd h (by simp [exBind])
  | ok d => exact ⟨d, rfl, h⟩

theorem exBind_error_left {x : Except PyErr OpenAPI}
    {f : OpenAPI → Except PyErr OpenAPI} {e : PyErr} (h : x = .error e) :
    exBind x f = .error e := by
  rw [h]
  rfl

theorem setSchemas_servers (doc : OpenAPI) (s : List (String × Schema)) :
    (setSchemas doc s).servers = doc.servers := by
  unfold setSchemas
  split <;> rfl

theorem setSchemas_paths (doc : OpenAPI) (s : List (String × Schema)) :
    (setSchemas doc s).paths = doc.paths := by
  unfold setSchemas
  split <;> rfl

theorem addServerStage_components (doc : OpenAPI) :
    (addServerStage doc).components = doc.components := by
  unfold addServerStage
  split <;> rfl

theorem addServerStage_paths (doc : OpenAPI) :
    (addServerStage doc).paths = doc.paths := by
  unfold addServerStage
  split <;> rfl

theorem addServerStage_servers_of_falsy {doc : OpenAPI}
    (h : serversFalsy doc.servers = true) :
    (addServerStage doc).servers =
      some [⟨"https://data.cms.gov/provider-data/api/1",
             some "CMS Provider Data API V1"⟩] := by
  unfold addServerStage
  rw [if_pos h]

theorem addServerStage_servers_of_nonempty {doc : OpenAPI}
    (h : serversFalsy doc.servers = false) :
    (addServerStage doc).servers = doc.servers := by
  unfold addServerStage
  rw [if_neg (by simp [h])]

theorem getSchemas_eq_of {doc : OpenAPI} {c : Components}
    {s : List (String × Schema)} (h1 : doc.components = some c)
    (h2 : c.schemas = some s) : getSchemas doc = .ok s := by
  simp [getSchemas, h1, h2]

theorem datasetsSchemaStage_frame {doc out : OpenAPI}
    (h : datasetsSchemaStage doc = .ok out) :
    out.servers = doc.servers ∧ out.paths = doc.paths := by
  unfold datasetsSchemaStage at h
  split at h
  · exact absurd h (by simp)
  · injection h with h2
    subst h2
    exact ⟨setSchemas_servers _ _, setSchemas_paths _ _⟩

theorem datasetsSchemaStage_ok_of {doc : OpenAPI} {c : Components}
    {s : List (String × Schema)} (h1 : doc.components = some c)
    (h2 : c.schemas = some s) :
    datasetsSchemaStage doc =
      .ok (setSchemas doc (dictInsert s "datasets" datasetsSchema)) := by
  unfold datasetsSchemaStage
  rw [getSchemas_eq_of h1 h2]

theorem renameStage_frame {doc out : OpenAPI} (h : renameStage doc = .ok out) :
    out.servers = doc.servers ∧ out.components = doc.components := by
  unfold renameStage at h
  split at h
  · exact absurd h (by simp)
  · split at h
    · exact absurd h (by simp)
    · injection h with h2
      subst h2
      exact ⟨rfl, rfl⟩

theorem renameStage_ok_decomp {doc out : OpenAPI} (h : renameStage doc = .ok out) :
    ∃ ps ps2, doc.paths = some ps ∧ renameLoop (ps.map Prod.fst) ps = .ok ps2 ∧
      out = { doc with paths := some ps2 } := by
  unfold renameStage at h
  split at h
  · exact absurd h (by simp)
  · rename_i ps hps
    split at h
    · exact absurd h (by simp)
    · rename_i ps2 hloop
      injection h with h2
      exact ⟨ps, ps2, hps, hloop, h2.symm⟩

theorem renameStage_error_of {doc : OpenAPI} {ps : List (String × PathItem)}
    {e : PyErr} (h1 : doc.paths = some ps)
    (h2 : renameLoop (ps.map Prod.fst) ps = .error e) :
    renameStage doc = .error e := by
  simp [renameStage, h1, h2]

theorem renameStage_ok_of {doc : OpenAPI} {ps ps2 : List (String × PathItem)}
    (h1 : doc.paths = some ps)
    (h2 : renameLoop (ps.map Prod.fst) ps = .ok ps2) :
    renameStage doc = .ok { doc with paths := some ps2 } := by
  simp [renameStage, h1, h2]

theorem dupGetTransform_ok {g g2 : Operation} (h : dupGetTransform g = .ok g2) :
    ∃ rs rs2, g.responses = some rs ∧
      setResponses200JsonRef rs "#/components/schemas/datasets" = .ok rs2 ∧
      g2 = { g with
             summary := some "Get all datasets."
             parameters := some ((match g.parameters with
               | none => []
               | some l => l).filter keepParam)
             responses := some rs2 } := by
  unfold dupGetTransform at h
  split at h
  · exact absurd h (by simp)
  · rename_i rs hrs
    split at h
    · exact absurd h (by simp)
    · rename_i rs2 hset
      injection h with h2
      exact ⟨rs, rs2, hrs, hset, h2.symm⟩

theorem duplicateStage_ok {doc out : OpenAPI} (h : duplicateStage doc = .ok out) :
    ∃ ps src g g2, doc.paths = some ps ∧
      dictGet? ps metastoreIdKey = some src ∧ src.get = some g ∧
      dupGetTransform g = .ok g2 ∧
      out = { doc with
              paths := some (dictInsert ps metastoreItemsKey
                { src with get := some g2 }) } := by
  unfold duplicateStage at h
  split at h
  · exact absurd h (by simp)
  · rename_i ps hps
    split at h
    · exact absurd h (by simp)
    · rename_i src hsrc
      split at h
      · exact absurd h (by simp)
      · rename_i g hg
        split at h
        · exact absurd h (by simp)
        · rename_i g2 hg2
          injection h with h2
          exact ⟨ps, src, g, g2, hps, hsrc, hg, hg2, h2.symm⟩

theorem landingPageStage_frame {doc out : OpenAPI}
    (h : landingPageStage doc = .ok out) :
    out.servers = doc.servers ∧ out.paths = doc.paths := by
  unfold landingPageStage at h
  repeat' split at h
  all_goals injection h
  all_goals rename_i h2
  all_goals subst h2
  all_goals exact ⟨setSchemas_servers _ _, setSchemas_paths _ _⟩

theorem resourceIdStage_frame {doc out : OpenAPI}
    (h : resourceIdStage doc = .ok out) :
    out.servers = doc.servers ∧ out.paths = doc.paths := by
  unfold resourceIdStage at h
  repeat' split at h
  all_goals injection h
  all_goals rename_i h2
  all_goals subst h2
  all_goals exact ⟨setSchemas_servers _ _, setSchemas_paths _ _⟩

theorem resolveParamsStage_ok {doc out : OpenAPI}
    (h : resolveParamsStage doc = .ok out) :
    out = doc ∧ ∀ k ∈ datastoreQueryResolveKeys, (paramsAt doc k).isSome = true := by
  unfold resolveParamsStage at h
  split at h
  · rename_i hall
    injection h with h2
    refine ⟨h2.symm, ?_⟩
    simpa [List.all_eq_true] using hall
  · exact absurd h (by simp)

theorem modifyPathGet_ok {doc out : OpenAPI} {key : String}
    {f : Operation → Except PyErr Operation} (h : modifyPathGet doc key f = .ok out) :
    ∃ ps item op op2, doc.paths = some ps ∧ dictGet? ps key = some item ∧
      item.get = some op ∧ f op = .ok op2 ∧
      out = { doc with
              paths := some (dictInsert ps key { item with get := some op2 }) } := by
  unfold modifyPathGet at h
  split at h
  · exact absurd h (by simp)
  · rename_i ps hps
    split at h
    · exact absurd h (by simp)
    · rename_i item hitem
      split at h
      · exact absurd h (by simp)
      · rename_i op hop
        split at h
        · exact absurd h (by simp)
        · rename_i op2 hop2
          injection h with h2
          exact ⟨ps, item, op, op2, hps, hitem, hop, hop2, h2.symm⟩

theorem pathsLookup_eq_of_paths_eq {a b : OpenAPI} (h : a.paths = b.paths)
    (k : String) : pathsLookup a k = pathsLookup b k := by
  unfold pathsLookup
  rw [h]

theorem paramsAt_congr {a b : OpenAPI} {k : String}
    (h : pathsLookup a k = pathsLookup b k) : paramsAt a k = paramsAt b k := by
  unfold paramsAt
  rw [h]

theorem modifyPathGet_frame {doc out : OpenAPI} {key : String}
    {f : Operation → Except PyErr Operation} (h : modifyPathGet doc key f = .ok out) :
    out.servers = doc.servers ∧ out.components = doc.components ∧
    ∀ k, k ≠ key → pathsLookup out k = pathsLookup doc k := by
  obtain ⟨ps, item, op, op2, hps, hitem, hop, hop2, rfl⟩ := modifyPathGet_ok h
  refine ⟨rfl, rfl, fun k hk => ?_⟩
  simp only [pathsLookup, hps]
  exact dictGet?_insert_ne ps _ hk

theorem appendParamStage_ok {doc out : OpenAPI} {key : String} {p : Param}
    (h : appendParamStage doc key p = .ok out) :
    ∃ ps item op l, doc.paths = some ps ∧ dictGet? ps key = some item ∧
      item.get = some op ∧ op.parameters = some l ∧
      out = { doc with
              paths := some (dictInsert ps key
                { item with
                  get := some { op with parameters := some (l ++ [p]) } }) } := by
  unfold appendParamStage at h
  split at h
  · exact absurd h (by simp)
  · rename_i ps hps
    split at h
    · exact absurd h (by simp)
    · rename_i item hitem
      split at h
      · exact absurd h (by simp)
      · rename_i op hop
        split at h
        · exact absurd h (by simp)
        · rename_i l hl
          injection h with h2
          exact ⟨ps, item, op, l, hps, hitem, hop, hl, h2.symm⟩

theorem appendParamStage_params {doc out : OpenAPI} {key : String} {p : Param}
    (h : appendParamStage doc key p = .ok out) :
    out.servers = doc.servers ∧ out.components = doc.components ∧
    (∀ k, k ≠ key → pathsLookup out k = pathsLookup doc k) ∧
    ∃ l, paramsAt doc key = some l ∧ paramsAt out key = some (l ++ [p]) := by
  obtain ⟨ps, item, op, l, hps, hitem, hop, hl, rfl⟩ := appendParamStage_ok h
  refine ⟨rfl, rfl, fun k hk => ?_, l, ?_, ?_⟩
  · simp only [pathsLookup, hps]
    exact dictGet?_insert_ne ps _ hk
  · simp [paramsAt, pathsLookup, hps, hitem, hop, hl]
  · simp [paramsAt, pathsLookup, hps, dictGet?_insert_self]

theorem appendToKeys_ok :
    ∀ (ks : List String) (doc : OpenAPI) (p : Param) (out : OpenAPI),
    appendToKeys ks doc p = .ok out → ks.Nodup →
    out.servers = doc.servers ∧ out.components = doc.components ∧
    (∀ k, k ∉ ks → pathsLookup out k = pathsLookup doc k) ∧
    (∀ k ∈ ks, ∃ l, paramsAt doc k = some l ∧ paramsAt out k = some (l ++ [p]))
  | [], doc, p, out, h, _ => by
    obtain ⟨rfl⟩ : out = doc := by
      simpa [appendToKeys] using h.symm
    exact ⟨rfl, rfl, fun _ _ => rfl, fun k hk => absurd hk (by simp)⟩
  | k0 :: ks, doc, p, out, h, hnd => by
    simp only [appendToKeys] at h
    obtain ⟨d1, h1, hrest⟩ := exBind_ok h
    obtain ⟨hs1, hc1, hlook1, l0, hl0, hl0'⟩ := appendParamStage_params h1
    have hnd' := hnd.of_cons
    have hk0 : k0 ∉ ks := (List.nodup_cons.1 hnd).1
    obtain ⟨hs2, hc2, hlook2, hmem2⟩ := appendToKeys_ok ks d1 p out hrest hnd'
    refine ⟨hs2.trans hs1, hc2.trans hc1, ?_, ?_⟩
    · intro k hk
      have hk1 : k ≠ k0 := fun e => hk (by simp [e])
      have hk2 : k ∉ ks := fun e => hk (by simp [e])
      exact (hlook2 k hk2).trans (hlook1 k hk1)
    · intro k hk
      rcases List.mem_cons.1 hk with rfl | hk
      · refine ⟨l0, hl0, ?_⟩
        have : pathsLookup out k = pathsLookup d1 k := hlook2 k hk0
        rw [paramsAt_congr this, hl0']
      · have hkne : k ≠ k0 := fun e => hk0 (e ▸ hk)
        obtain ⟨l, hl, hl'⟩ := hmem2 k hk
        refine ⟨l, ?_, hl'⟩
        rw [← hl, paramsAt_congr (hlook1 k hkne)]

theorem buildQueryParam_ok {comps : Option Components} {n : String} {p : Param}
    (h : buildQueryParam comps n = .ok p) : ∃ d, p = mkQueryParam n d := by
  unfold buildQueryParam at h
  repeat' split at h
  all_goals injection h
  all_goals rename_i h2
  all_goals exact ⟨_, h2.symm⟩

theorem queryParamsLoop_ok :
    ∀ (ns : List String) (doc out : OpenAPI),
    queryParamsLoop ns doc = .ok out →
    out.servers = doc.servers ∧ out.components = doc.components ∧
    (∀ k, k ∉ datastoreQueryAppendKeys → pathsLookup out k = pathsLookup doc k) ∧
    (∀ k ∈ datastoreQueryAppendKeys, ∀ l, paramsAt doc k = some l →
      ∃ ds, ds.length = ns.length ∧
        paramsAt out k = some (l ++ List.zipWith mkQueryParam ns ds))
  | [], doc, out, h => by
    obtain ⟨rfl⟩ : out = doc := by
      simpa [queryParamsLoop] using h.symm
    exact ⟨rfl, rfl, fun _ _ => rfl,
      fun k _ l hl => ⟨[], rfl, by simpa using hl⟩⟩
  | n :: ns, doc, out, h => by
    simp only [queryParamsLoop] at h
    split at h
    · exact absurd h (by simp)
    · rename_i p hp
      obtain ⟨d1, h1, hrest⟩ := exBind_ok h
      have hnd : datastoreQueryAppendKeys.Nodup := by decide
      obtain ⟨hs1, hc1, hlook1, hmem1⟩ :=
        appendToKeys_ok datastoreQueryAppendKeys doc p d1 h1 hnd
      obtain ⟨hs2, hc2, hlook2, hmem2⟩ := queryParamsLoop_ok ns d1 out hrest
      obtain ⟨d0, rfl⟩ := buildQueryParam_ok hp
      refine ⟨hs2.trans hs1, hc2.trans hc1,
        fun k hk => (hlook2 k hk).trans (hlook1 k hk), ?_⟩
      intro k hk l hl
      obtain ⟨l1, hl1, hl1'⟩ := hmem1 k hk
      rw [hl] at hl1
      injection hl1 with hl1
      subst hl1
      obtain ⟨ds, hds, hout⟩ := hmem2 k hk _ hl1'
      refine ⟨d0 :: ds, by simp [hds], ?_⟩
      rw [hout]
      simp

theorem stripPostDescription_parameters (op : Operation) :
    (stripPostDescription op).parameters = op.parameters := by
  unfold stripPostDescription
  repeat' split
  all_goals rfl

theorem stripDescriptionsLoop_ok :
    ∀ (ks : List String) (doc out : OpenAPI),
    stripDescriptionsLoop ks doc = .ok out →
    out.servers = doc.servers ∧ out.components = doc.components ∧
    (∀ k, k ∉ ks → pathsLookup out k = pathsLookup doc k) ∧
    (∀ k, paramsAt out k = paramsAt doc k)
  | [], doc, out, h => by
    obtain ⟨rfl⟩ : out = doc := by
      simpa [stripDescriptionsLoop] using h.symm
    exact ⟨rfl, rfl, fun _ _ => rfl, fun _ => rfl⟩
  | k0 :: ks, doc, out, h => by
    simp only [stripDescriptionsLoop] at h
    obtain ⟨d1, h1, hrest⟩ := exBind_ok h
    obtain ⟨ps, item, op, op2, hps, hitem, hop, hop2, rfl⟩ := modifyPathGet_ok h1
    injection hop2 with hop2
    obtain ⟨hs2, hc2, hlook2, hpar2⟩ := stripDescriptionsLoop_ok ks _ out hrest
    have hlook1 : ∀ k, k ≠ k0 →
        pathsLookup { doc with
          paths := some (dictInsert ps k0 { item with get := some op2 }) } k =
          pathsLookup doc k := by
      intro k hk
      simp only [pathsLookup, hps]
      exact dictGet?_insert_ne ps _ hk
    have hpar1 : ∀ k, paramsAt { doc with
        paths := some (dictInsert ps k0 { item with get := some op2 }) } k =
        paramsAt doc k := by
      intro k
      by_cases hk : k = k0
      · subst hk
        simp only [paramsAt, pathsLookup, hps, hitem, hop, dictGet?_insert_self]
        rw [← hop2, stripPostDescription_parameters]
      · exact paramsAt_congr (hlook1 k hk)
    refine ⟨hs2, hc2, fun k hk => ?_, fun k => (hpar2 k).trans (hpar1 k)⟩
    have hk1 : k ≠ k0 := fun e => hk (by simp [e])
    have hk2 : k ∉ ks := fun e => hk (by simp [e])
    exact (hlook2 k hk2).trans (hlook1 k hk1)

theorem distributionIndexStage_frame {doc out : OpenAPI}
    (h : distributionIndexStage doc = .ok out) :
    out.servers = doc.servers ∧ out.paths = doc.paths := by
  unfold distributionIndexStage at h
  repeat' split at h
  all_goals injection h
  all_goals rename_i h2
  all_goals subst h2
  all_goals exact ⟨rfl, rfl⟩

theorem jsonOrCsvStage_frame {doc out : OpenAPI}
    (h : jsonOrCsvStage doc = .ok out) :
    out.servers = doc.servers ∧ out.paths = doc.paths := by
  unfold jsonOrCsvStage at h
  repeat' split at h
  all_goals injection h
  all_goals rename_i h2
  all_goals subst h2
  all_goals exact ⟨rfl, rfl⟩

theorem facetsItemsStage_frame {doc out : OpenAPI}
    (h : facetsItemsStage doc = .ok out) :
    out.servers = doc.servers ∧ out.paths = doc.paths := by
  unfold facetsItemsStage at h
  repeat' split at h
  all_goals injection h
  all_goals rename_i h2
  all_goals subst h2
  all_goals exact ⟨setSchemas_servers _ _, setSchemas_paths _ _⟩

theorem searchStage_frame {doc out : OpenAPI} (h : searchStage doc = .ok out) :
    out.servers = doc.servers ∧ out.components = doc.components ∧
    ∀ k, k ≠ "/search" → pathsLookup out k = pathsLookup doc k :=
  modifyPathGet_frame h

theorem searchFacetsStage_frame {doc out : OpenAPI}
    (h : searchFacetsStage doc = .ok out) :
    out.servers = doc.servers ∧ out.components = doc.components ∧
    ∀ k, k ≠ "/search/facets" → pathsLookup out k = pathsLookup doc k := by
  unfold searchFacetsStage at h
  split at h
  · exact absurd h (by simp)
  · exact modifyPathGet_frame h

theorem fix_ok_decomp {doc out : OpenAPI}
    (h : fix_provider_data_openapi doc = .ok out) :
    ∃ d2 d3 d4 d5 d6 d7 d8 d9 d10 d11 d12 d13,
      datasetsSchemaStage (addServerStage doc) = .ok d2 ∧
      renameStage d2 = .ok d3 ∧
      duplicateStage d3 = .ok d4 ∧
      landingPageStage d4 = .ok d5 ∧
      resourceIdStage d5 = .ok d6 ∧
      resolveParamsStage d6 = .ok d7 ∧
      queryParamsStage d7 = .ok d8 ∧
      descriptionsStage d8 = .ok d9 ∧
      distributionIndexStage d9 = .ok d10 ∧
      jsonOrCsvStage d10 = .ok d11 ∧
      searchStage d11 = .ok d12 ∧
      searchFacetsStage d12 = .ok d13 ∧
      facetsItemsStage d13 = .ok out := by
  unfold fix_provider_data_openapi at h
  obtain ⟨d2, h2, h⟩ := exBind_ok h
  obtain ⟨d3, h3, h⟩ := exBind_ok h
  obtain ⟨d4, h4, h⟩ := exBind_ok h
  obtain ⟨d5, h5, h⟩ := exBind_ok h
  obtain ⟨d6, h6, h⟩ := exBind_ok h
  obtain ⟨d7, h7, h⟩ := exBind_ok h
  obtain ⟨d8, h8, h⟩ := exBind_ok h
  obtain ⟨d9, h9, h⟩ := exBind_ok h
  obtain ⟨d10, h10, h⟩ := exBind_ok h
  obtain ⟨d11, h11, h⟩ := exBind_ok h
  obtain ⟨d12, h12, h⟩ := exBind_ok h
  obtain ⟨d13, h13, h⟩ := exBind_ok h
  exact ⟨d2, d3, d4, d5, d6, d7, d8, d9, d10, d11, d12, d13,
    h2, h3, h4, h5, h6, h7, h8, h9, h10, h11, h12, h13, h⟩

theorem renameLoop_error :
    ∀ (ks : List String) (d : List (String × PathItem)) {b : String},
    ks.Nodup → (∀ k ∈ ks, (dictGet? d k).isSome = true) →
    ks.find? (fun k => ! strStarts k oldPathStart) = some b →
    renameLoop ks d = .error (.valueError b)
  | [], _, b, _, _, hf => by simp at hf
  | k :: ks, d, b, hnd, hsome, hf => by
    by_cases hs : strStarts k oldPathStart = true
    · have hpk : (fun k => ! strStarts k oldPathStart) k = false := by
        simp [hs]
      rw [List.find?_cons_of_neg _ (by simp [hpk])] at hf
      obtain ⟨v, hv⟩ := Option.isSome_iff_exists.1 (hsome k (by simp))
      simp only [renameLoop]
      rw [if_pos hs, hv]
      have hk0 : k ∉ ks := (List.nodup_cons.1 hnd).1
      refine renameLoop_error ks _ hnd.of_cons ?_ hf
      intro k2 hk2
      have hne : k2 ≠ k := fun e => hk0 (e ▸ hk2)
      by_cases he : k2 = strDropChars k 20
      · subst he
        simp [dictGet?_insert_self]
      · rw [dictGet?_insert_ne _ _ he, dictGet?_erase_ne _ hne]
        exact hsome k2 (by simp [hk2])
    · have hpk : (fun k => ! strStarts k oldPathStart) k = true := by
        simp [Bool.not_eq_true] at hs
        simp [hs]
      rw [show List.find? (fun k => ! strStarts k oldPathStart) (k :: ks) = some k from
        List.find?_cons_of_pos _ hpk] at hf
      injection hf with hf
      subst hf
      simp only [renameLoop]
      rw [if_neg hs]

theorem renameLoop_clean :
    ∀ (orig done : List (String × PathItem)),
    (∀ p ∈ orig, strStarts p.1 oldPathStart = true) →
    ((orig.map Prod.fst).Nodup) →
    (∀ p ∈ orig, ∀ q ∈ orig, strDropChars p.1 20 ≠ q.1) →
    (∀ p ∈ orig, ∀ q ∈ done, strDropChars p.1 20 ≠ q.1) →
    renameLoop (orig.map Prod.fst) (orig ++ done) =
      .ok (done ++ orig.map (fun p => (strDropChars p.1 20, p.2)))
  | [], done, _, _, _, _ => by simp [renameLoop]
  | (k, v) :: orig, done, hpre, hnd, hcoll, hdone => by
    have hs : strStarts k oldPathStart = true := hpre (k, v) (by simp)
    have hnd2 : (k :: orig.map Prod.fst).Nodup := by simpa using hnd
    have hknotin : k ∉ orig.map Prod.fst := (List.nodup_cons.1 hnd2).1
    have hget : dictGet? ((k, v) :: (orig ++ done)) k = some v := by
      simp [dictGet?]
    have hfresh : strDropChars k 20 ∉ (orig ++ done).map Prod.fst := by
      intro hmem
      rw [List.map_append, List.mem_append] at hmem
      rcases hmem with hmem | hmem
      · obtain ⟨q, hq, hq2⟩ := List.mem_map.1 hmem
        exact hcoll (k, v) (by simp) q (by simp [hq]) hq2.symm
      · obtain ⟨q, hq, hq2⟩ := List.mem_map.1 hmem
        exact hdone (k, v) (by simp) q hq hq2.symm
    have hrec := renameLoop_clean orig (done ++ [(strDropChars k 20, v)])
      (fun p hp => hpre p (by simp [hp]))
      (hnd2.of_cons)
      (fun p hp q hq => hcoll p (by simp [hp]) q (by simp [hq]))
      (by
        intro p hp q hq
        rw [List.mem_append] at hq
        rcases hq with hq | hq
        · exact hdone p (by simp [hp]) q hq
        · rw [List.mem_singleton] at hq
          subst hq
          intro he
          exact hknotin (by
            have hpk : p.1 = k := drop20_inj (hpre p (by simp [hp])) hs he
            rw [← hpk]
            exact List.mem_map.2 ⟨p, hp, rfl⟩))
    simp only [List.map_cons, List.cons_append, renameLoop]
    rw [if_pos hs]
    split
    · rename_i heq
      rw [hget] at heq
      exact Option.noConfusion heq
    · rename_i item heq
      rw [hget] at heq
      injection heq with heq
      subst heq
      rw [dictErase_cons_self, dictInsert_of_not_mem _ hfresh, List.append_assoc, hrec]
      simp

theorem renameLoop_clean_nil (ps : List (String × PathItem))
    (hpre : ∀ p ∈ ps, strStarts p.1 oldPathStart = true)
    (hnd : (ps.map Prod.fst).Nodup)
    (hcoll : ∀ p ∈ ps, ∀ q ∈ ps, strDropChars p.1 20 ≠ q.1) :
    renameLoop (ps.map Prod.fst) ps =
      .ok (ps.map (fun p => (strDropChars p.1 20, p.2))) := by
  have := renameLoop_clean ps [] hpre hnd hcoll (by simp)
  simpa using this

/-! ## Claims -/

/-- C1: when the document has components with a schemas mapping (so the
stages before the rename loop succeed) and some path key does not start with
`/provider-data/api/1/`, `fix_provider_data_openapi` raises `ValueError`
carrying the first such key: the whole run aborts with that error, so no
patch after the path-rename loop is applied. -/
theorem fix_raises_valueError_on_unexpected_path {doc : OpenAPI}
    {c : Components} {s : List (String × Schema)}
    {ps : List (String × PathItem)} {b : String}
    (hc : doc.components = some c) (hs : c.schemas = some s)
    (hps : doc.paths = some ps) (hnd : (ps.map Prod.fst).Nodup)
    (hfind : (ps.map Prod.fst).find? (fun k => ! strStarts k oldPathStart) = some b) :
    fix_provider_data_openapi doc = .error (.valueError b) ∧
    strStarts b oldPathStart = false ∧ b ∈ ps.map Prod.fst := by
  refine ⟨?_, ?_, List.mem_of_find?_eq_some hfind⟩
  · have hc1 : (addServerStage doc).components = some c :=
      (addServerStage_components doc).trans hc
    have hstage2 := datasetsSchemaStage_ok_of hc1 hs
    have hpaths2 :
        (setSchemas (addServerStage doc) (dictInsert s "datasets" datasetsSchema)).paths
          = some ps := by
      rw [setSchemas_paths, addServerStage_paths, hps]
    have hloop : renameLoop (ps.map Prod.fst) ps = .error (.valueError b) :=
      renameLoop_error _ _ hnd
        (fun k hk => dictGet?_isSome_of_mem hk) hfind
    unfold fix_provider_data_openapi
    rw [hstage2]
    simp only [exBind]
    rw [renameStage_error_of hpaths2 hloop]
  · have := List.find?_some hfind
    simpa using this

/-- Witness for C1 at a concrete document whose single path key is
`/bad-path`. -/
theorem fix_raises_valueError_on_unexpected_path_witness :
    fix_provider_data_openapi badPathDoc = .error (.valueError "/bad-path") ∧
    strStarts "/bad-path" oldPathStart = false ∧
    "/bad-path" ∈ ([("/bad-path", itemA)] : List (String × PathItem)).map Prod.fst :=
  fix_raises_valueError_on_unexpected_path rfl rfl rfl (by decide) (by decide)

/-- C2 (counterexample): the path-rename step is not always a clean
per-entry renaming.  On a document whose two path keys are
`/provider-data/api/1/provider-data/api/1/x` and `/provider-data/api/1/x`,
renaming the first key overwrites the second entry, so the loop ends with a
single path entry: the second path item is lost and the number of path
entries shrinks from 2 to 1. -/
theorem renameStage_collision_counterexample :
    renameStage collidingDoc =
      .ok { collidingDoc with paths := some [("/x", itemA)] } ∧
    collidingPaths.length = 2 ∧
    ([("/x", itemA)] : List (String × PathItem)).length ≠ collidingPaths.length := by
  refine ⟨rfl, rfl, by decide⟩

/-- C2 (amended): when every path key starts with `/provider-data/api/1/`,
the keys are distinct, and no key's 20-character-stripped form collides with
another key, the path-rename step replaces each key
`/provider-data/api/1/<rest>` by `/<rest>` bound to the same path item, in
order; every renamed key begins with `/` and the number of path entries is
unchanged. -/
theorem renameStage_clean_rename {doc : OpenAPI} {ps : List (String × PathItem)}
    (hps : doc.paths = some ps)
    (hpre : ∀ p ∈ ps, strStarts p.1 oldPathStart = true)
    (hnd : (ps.map Prod.fst).Nodup)
    (hcoll : ∀ p ∈ ps, ∀ q ∈ ps, strDropChars p.1 20 ≠ q.1) :
    renameStage doc =
      .ok { doc with paths := some (ps.map (fun p => (strDropChars p.1 20, p.2))) } ∧
    (ps.map (fun p => (strDropChars p.1 20, p.2))).length = ps.length ∧
    ∀ p ∈ ps, strStarts (strDropChars p.1 20) "/" = true := by
  refine ⟨renameStage_ok_of hps (renameLoop_clean_nil ps hpre hnd hcoll),
    List.length_map _ _, fun p hp => drop20_startsSlash (hpre p hp)⟩

/-- Witness for the amended C2 on a two-entry document. -/
theorem renameStage_clean_rename_witness :
    renameStage plainRenameDoc =
      .ok { plainRenameDoc with
            paths := some (plainRenamePaths.map
              (fun p => (strDropChars p.1 20, p.2))) } ∧
    (plainRenamePaths.map (fun p => (strDropChars p.1 20, p.2))).length
      = plainRenamePaths.length ∧
    ∀ p ∈ plainRenamePaths, strStarts (strDropChars p.1 20) "/" = true :=
  renameStage_clean_rename rfl (by decide) (by decide) (by decide)

/-- C4: when `fix_provider_data_openapi` succeeds, it has set the document's
servers to the single server with url
`https://data.cms.gov/provider-data/api/1` exactly when the document had no
servers (`None` or empty); a non-empty servers sequence is left unchanged. -/
theorem fix_servers_default_iff {doc out : OpenAPI}
    (h : fix_provider_data_openapi doc = .ok out) :
    (serversFalsy doc.servers = true →
      out.servers = some [⟨"https://data.cms.gov/provider-data/api/1",
                           some "CMS Provider Data API V1"⟩]) ∧
    (serversFalsy doc.servers = false → out.servers = doc.servers) := by
  obtain ⟨d2, d3, d4, d5, d6, d7, d8, d9, d10, d11, d12, d13,
    h2, h3, h4, h5, h6, h7, h8, h9, h10, h11, h12, h13, h14⟩ := fix_ok_decomp h
  have e2 := (datasetsSchemaStage_frame h2).1
  have e3 := (renameStage_frame h3).1
  have e4 : d4.servers = d3.servers := by
    obtain ⟨ps, src, g, g2, hps, hsrc, hg, hg2, rfl⟩ := duplicateStage_ok h4
    rfl
  have e5 := (landingPageStage_frame h5).1
  have e6 := (resourceIdStage_frame h6).1
  have e7 : d7.servers = d6.servers := by rw [(resolveParamsStage_ok h7).1]
  have e8 := (queryParamsLoop_ok queryParamNames d7 d8 h8).1
  have e9 := (stripDescriptionsLoop_ok datastoreQueryResolveKeys d8 d9 h9).1
  have e10 := (distributionIndexStage_frame h10).1
  have e11 := (jsonOrCsvStage_frame h11).1
  have e12 := (searchStage_frame h12).1
  have e13 := (searchFacetsStage_frame h13).1
  have e14 := (facetsItemsStage_frame h14).1
  have eAll : out.servers = (addServerStage doc).servers := by
    rw [e14, e13, e12, e11, e10, e9, e8, e7, e6, e5, e4, e3, e2]
  constructor
  · intro hf
    rw [eAll, addServerStage_servers_of_falsy hf]
  · intro hf
    rw [eAll, addServerStage_servers_of_nonempty hf]

/-- Witness for C4 at the concrete witness document (which has no servers). -/
theorem fix_servers_default_iff_witness :
    (serversFalsy miniDoc.servers = true →
      miniFixed.servers = some [⟨"https://data.cms.gov/provider-data/api/1",
                                 some "CMS Provider Data API V1"⟩]) ∧
    (serversFalsy miniDoc.servers = false → miniFixed.servers = miniDoc.servers) :=
  fix_servers_default_iff rfl

theorem setResponses200JsonRef_ref {rs rs2 : List (String × Response)} {r : String}
    (h : setResponses200JsonRef rs r = .ok rs2) :
    responses200JsonSchema rs2 = some (.reference r) := by
  unfold setResponses200JsonRef at h
  repeat' split at h
  all_goals injection h
  all_goals rename_i h2
  all_goals subst h2
  simp [responses200JsonSchema, dictGet?_insert_self]

/-- The two metastore path keys are untouched by every stage after the
duplication. -/
theorem metastore_lookup_stable {d4 out : OpenAPI} {k : String}
    (hk : k = metastoreIdKey ∨ k = metastoreItemsKey)
    {d5 d6 d7 d8 d9 d10 d11 d12 d13 : OpenAPI}
    (h5 : landingPageStage d4 = .ok d5) (h6 : resourceIdStage d5 = .ok d6)
    (h7 : resolveParamsStage d6 = .ok d7) (h8 : queryParamsStage d7 = .ok d8)
    (h9 : descriptionsStage d8 = .ok d9) (h10 : distributionIndexStage d9 = .ok d10)
    (h11 : jsonOrCsvStage d10 = .ok d11) (h12 : searchStage d11 = .ok d12)
    (h13 : searchFacetsStage d12 = .ok d13) (h14 : facetsItemsStage d13 = .ok out) :
    pathsLookup out k = pathsLookup d4 k := by
  have hk6 : k ∉ datastoreQueryAppendKeys ∧ k ∉ datastoreQueryResolveKeys ∧
      k ≠ "/search" ∧ k ≠ "/search/facets" := by
    rcases hk with rfl | rfl <;> exact by decide
  have p5 := pathsLookup_eq_of_paths_eq (landingPageStage_frame h5).2 k
  have p6 := pathsLookup_eq_of_paths_eq (resourceIdStage_frame h6).2 k
  have p7 : pathsLookup d7 k = pathsLookup d6 k := by
    rw [(resolveParamsStage_ok h7).1]
  have p8 := (queryParamsLoop_ok queryParamNames d7 d8 h8).2.2.1 k hk6.1
  have p9 := (stripDescriptionsLoop_ok datastoreQueryResolveKeys d8 d9 h9).2.2.1
    k hk6.2.1
  have p10 := pathsLookup_eq_of_paths_eq (distributionIndexStage_frame h10).2 k
  have p11 := pathsLookup_eq_of_paths_eq (jsonOrCsvStage_frame h11).2 k
  have p12 := (searchStage_frame h12).2.2 k hk6.2.2.1
  have p13 := (searchFacetsStage_frame h13).2.2 k hk6.2.2.2
  have p14 := pathsLookup_eq_of_paths_eq (facetsItemsStage_frame h14).2 k
  rw [p14, p13, p12, p11, p10, p9, p8, p7, p6, p5]

/-- C3: after `fix_provider_data_openapi` succeeds, the paths map binds
`/metastore/schemas/dataset/items` to a copy of the (unmodified) path item
still found at `/metastore/schemas/dataset/items/{identifier}`, equal to it
except for its GET operation, whose summary is `Get all datasets.`, whose
parameters are the source's parameters with every
`#/components/parameters/datasetUuid` reference filtered out, and whose
`200` / `application/json` response schema is the reference
`#/components/schemas/datasets` (the rest of the responses produced by the
single ref assignment). -/
theorem fix_duplicates_metastore_items {doc out : OpenAPI}
    (h : fix_provider_data_openapi doc = .ok out) :
    ∃ src g g2 rs rs2,
      pathsLookup out metastoreIdKey = some src ∧
      pathsLookup out metastoreItemsKey = some { src with get := some g2 } ∧
      src.get = some g ∧
      g2.summary = some "Get all datasets." ∧
      g2.description = g.description ∧
      g2.parameters = some ((match g.parameters with
        | none => []
        | some l => l).filter keepParam) ∧
      (∀ p ∈ (match g2.parameters with | none => [] | some l => l),
        p ≠ Param.reference "#/components/parameters/datasetUuid") ∧
      g.responses = some rs ∧
      setResponses200JsonRef rs "#/components/schemas/datasets" = .ok rs2 ∧
      g2.responses = some rs2 ∧
      responses200JsonSchema rs2 = some (.reference "#/components/schemas/datasets") := by
  obtain ⟨d2, d3, d4, d5, d6, d7, d8, d9, d10, d11, d12, d13,
    h2, h3, h4, h5, h6, h7, h8, h9, h10, h11, h12, h13, h14⟩ := fix_ok_decomp h
  obtain ⟨ps, src, g, g2, hps, hsrc, hg, hg2, rfl⟩ := duplicateStage_ok h4
  obtain ⟨rs, rs2, hrs, hset, rfl⟩ := dupGetTransform_ok hg2
  have hne : metastoreIdKey ≠ metastoreItemsKey := by decide
  refine ⟨src, g,
    { summary := some "Get all datasets."
      description := g.description
      parameters := some ((match g.parameters with
        | none => []
        | some l => l).filter keepParam)
      responses := some rs2 },
    rs, rs2, ?_, ?_, hg, rfl, rfl, rfl, ?_, hrs, hset, rfl,
    setResponses200JsonRef_ref hset⟩
  · rw [metastore_lookup_stable (Or.inl rfl) h5 h6 h7 h8 h9 h10 h11 h12 h13 h14]
    simp only [pathsLookup]
    rw [dictGet?_insert_ne _ _ hne, hsrc]
  · rw [metastore_lookup_stable (Or.inr rfl) h5 h6 h7 h8 h9 h10 h11 h12 h13 h14]
    simp only [pathsLookup]
    rw [dictGet?_insert_self]
  · intro p hp
    simp only at hp
    have := (List.mem_filter.1 hp).2
    intro he
    subst he
    simp [keepParam] at this

/-- Witness for C3 at the concrete witness document. -/
theorem fix_duplicates_metastore_items_witness :
    ∃ src g g2 rs rs2,
      pathsLookup miniFixed metastoreIdKey = some src ∧
      pathsLookup miniFixed metastoreItemsKey = some { src with get := some g2 } ∧
      src.get = some g ∧
      g2.summary = some "Get all datasets." ∧
      g2.description = g.description ∧
      g2.parameters = some ((match g.parameters with
        | none => []
        | some l => l).filter keepParam) ∧
      (∀ p ∈ (match g2.parameters with | none => [] | some l => l),
        p ≠ Param.reference "#/components/parameters/datasetUuid") ∧
      g.responses = some rs ∧
      setResponses200JsonRef rs "#/components/schemas/datasets" = .ok rs2 ∧
      g2.responses = some rs2 ∧
      responses200JsonSchema rs2 = some (.reference "#/components/schemas/datasets") :=
  @fix_duplicates_metastore_items miniDoc miniFixed rfl

/-- C6: when `fix_provider_data_openapi` succeeds, each of the six
datastore-query GET operations ends with six new query parameters appended
after its original parameters, in the order `resources`, `properties`,
`conditions`, `joins`, `groupings`, `sorts`; each built parameter has
`in_="query"`, `required=False`, `style="deepObject"` and a schema reference
`#/components/schemas/datastoreQuery/properties/<name>`. -/
theorem fix_appends_datastore_query_params {doc out : OpenAPI}
    (h : fix_provider_data_openapi doc = .ok out) :
    (∀ k ∈ datastoreQueryResolveKeys, ∃ old e1 e2 e3 e4 e5 e6,
      paramsAt out k = some (old ++
        [mkQueryParam "resources" e1, mkQueryParam "properties" e2,
         mkQueryParam "conditions" e3, mkQueryParam "joins" e4,
         mkQueryParam "groupings" e5, mkQueryParam "sorts" e6])) ∧
    (∀ n d, mkQueryParam n d = Param.mk (some n) (some "query") (some false)
        (some "deepObject")
        (some (.reference ("#/components/schemas/datastoreQuery/properties/" ++ n)))
        d) := by
  obtain ⟨d2, d3, d4, d5, d6, d7, d8, d9, d10, d11, d12, d13,
    h2, h3, h4, h5, h6, h7, h8, h9, h10, h11, h12, h13, h14⟩ := fix_ok_decomp h
  refine ⟨?_, fun n d => rfl⟩
  intro k hk
  have hAll : ∀ x ∈ datastoreQueryResolveKeys,
      x ∈ datastoreQueryAppendKeys ∧ x ≠ "/search" ∧ x ≠ "/search/facets" := by
    decide
  have hk6 := hAll k hk
  obtain ⟨d7eq, hresolved⟩ := resolveParamsStage_ok h7
  rw [d7eq] at h8
  obtain ⟨l, hl⟩ := Option.isSome_iff_exists.1 (hresolved k hk)
  obtain ⟨ds, hds, hout8⟩ :=
    (queryParamsLoop_ok queryParamNames d6 d8 h8).2.2.2 k hk6.1 l hl
  have hpar9 := (stripDescriptionsLoop_ok datastoreQueryResolveKeys d8 d9 h9).2.2.2 k
  have hpar10 :=
    paramsAt_congr (pathsLookup_eq_of_paths_eq (distributionIndexStage_frame h10).2 k)
  have hpar11 :=
    paramsAt_congr (pathsLookup_eq_of_paths_eq (jsonOrCsvStage_frame h11).2 k)
  have hpar12 := paramsAt_congr ((searchStage_frame h12).2.2 k hk6.2.1)
  have hpar13 := paramsAt_congr ((searchFacetsStage_frame h13).2.2 k hk6.2.2)
  have hpar14 :=
    paramsAt_congr (pathsLookup_eq_of_paths_eq (facetsItemsStage_frame h14).2 k)
  have hfinal : paramsAt out k =
      some (l ++ List.zipWith mkQueryParam queryParamNames ds) := by
    rw [hpar14, hpar13, hpar12, hpar11, hpar10, hpar9, hout8]
  rcases ds with _ | ⟨e1, _ | ⟨e2, _ | ⟨e3, _ | ⟨e4, _ | ⟨e5, _ | ⟨e6, _ | ⟨e7, tl⟩⟩⟩⟩⟩⟩⟩ <;>
    simp only [queryParamNames, List.length_cons, List.length_nil] at hds <;>
    try omega
  refine ⟨l, e1, e2, e3, e4, e5, e6, ?_⟩
  simpa [queryParamNames] using hfinal

/-- Witness for C6 at the concrete witness document. -/
theorem fix_appends_datastore_query_params_witness :
    (∀ k ∈ datastoreQueryResolveKeys, ∃ old e1 e2 e3 e4 e5 e6,
      paramsAt miniFixed k = some (old ++
        [mkQueryParam "resources" e1, mkQueryParam "properties" e2,
         mkQueryParam "conditions" e3, mkQueryParam "joins" e4,
         mkQueryParam "groupings" e5, mkQueryParam "sorts" e6])) ∧
    (∀ n d, mkQueryParam n d = Param.mk (some n) (some "query") (some false)
        (some "deepObject")
        (some (.reference ("#/components/schemas/datastoreQuery/properties/" ++ n)))
        d) :=
  @fix_appends_datastore_query_params miniDoc miniFixed rfl

theorem expectUnauthenticated_spec (e : Nat) (m : String) (c : Nat) :
    (expectUnauthenticated e m (.httpError c) = .raisedHttpError c ↔ c ≠ e) ∧
    (c = e → expectUnauthenticated e m (.httpError c) = .passed) ∧
    expectUnauthenticated e m .ok = .raisedRuntimeError m := by
  refine ⟨?_, ?_, rfl⟩
  · by_cases hc : c = e
    · subst hc
      simp [expectUnauthenticated]
    · simp [expectUnauthenticated, hc]
  · intro hc
    subst hc
    simp [expectUnauthenticated]

/-- C7: in each modelled unauthenticated-mutation test, an `HTTPError` from
the client call is re-raised (with its own code) exactly when its status
code differs from the single expected code — 501 for the metastore dataset
PUT/PATCH tests, 401 for the datastore-imports and harvest tests — it is
swallowed (the test passes) when the code matches, and a call that returns
without raising makes the test raise `RuntimeError`.  For the metastore
tests the preliminary GET is taken to succeed (`CallOutcome.ok`). -/
theorem unauthenticated_tests_error_handling (c : Nat) :
    ((test_put_metastore_schemas_dataset_items_identifier .ok (.httpError c)
        = .raisedHttpError c) ↔ c ≠ 501) ∧
    (c = 501 → test_put_metastore_schemas_dataset_items_identifier .ok (.httpError c)
        = .passed) ∧
    (∃ m, test_put_metastore_schemas_dataset_items_identifier .ok .ok
        = .raisedRuntimeError m) ∧
    ((test_patch_metastore_schemas_dataset_items_identifier .ok (.httpError c)
        = .raisedHttpError c) ↔ c ≠ 501) ∧
    (c = 501 → test_patch_metastore_schemas_dataset_items_identifier .ok (.httpError c)
        = .passed) ∧
    (∃ m, test_patch_metastore_schemas_dataset_items_identifier .ok .ok
        = .raisedRuntimeError m) ∧
    ((test_put_metastore_schemas_dataset_items .ok (.httpError c)
        = .raisedHttpError c) ↔ c ≠ 501) ∧
    (c = 501 → test_put_metastore_schemas_dataset_items .ok (.httpError c)
        = .passed) ∧
    (∃ m, test_put_metastore_schemas_dataset_items .ok .ok
        = .raisedRuntimeError m) ∧
    ((test_patch_metastore_schemas_dataset_items .ok (.httpError c)
        = .raisedHttpError c) ↔ c ≠ 501) ∧
    (c = 501 → test_patch_metastore_schemas_dataset_items .ok (.httpError c)
        = .passed) ∧
    (∃ m, test_patch_metastore_schemas_dataset_items .ok .ok
        = .raisedRuntimeError m) ∧
    ((test_client_get_datastore_imports (.httpError c) = .raisedHttpError c) ↔
      c ≠ 401) ∧
    (c = 401 → test_client_get_datastore_imports (.httpError c) = .passed) ∧
    (∃ m, test_client_get_datastore_imports .ok = .raisedRuntimeError m) ∧
    ((test_client_post_datastore_imports (.httpError c) = .raisedHttpError c) ↔
      c ≠ 401) ∧
    (c = 401 → test_client_post_datastore_imports (.httpError c) = .passed) ∧
    (∃ m, test_client_post_datastore_imports .ok = .raisedRuntimeError m) ∧
    ((test_get_harvest_plans (.httpError c) = .raisedHttpError c) ↔ c ≠ 401) ∧
    (c = 401 → test_get_harvest_plans (.httpError c) = .passed) ∧
    (∃ m, test_get_harvest_plans .ok = .raisedRuntimeError m) ∧
    ((test_post_harvest_plans (.httpError c) = .raisedHttpError c) ↔ c ≠ 401) ∧
    (c = 401 → test_post_harvest_plans (.httpError c) = .passed) ∧
    (∃ m, test_post_harvest_plans .ok = .raisedRuntimeError m) ∧
    ((test_get_harvest_plans_plan_id (.httpError c) = .raisedHttpError c) ↔ c ≠ 401) ∧
    (c = 401 → test_get_harvest_plans_plan_id (.httpError c) = .passed) ∧
    (∃ m, test_get_harvest_plans_plan_id .ok = .raisedRuntimeError m) ∧
    ((test_get_harvest_runs (.httpError c) = .raisedHttpError c) ↔ c ≠ 401) ∧
    (c = 401 → test_get_harvest_runs (.httpError c) = .passed) ∧
    (∃ m, test_get_harvest_runs .ok = .raisedRuntimeError m) ∧
    ((test_get_harvest_runs_run_id (.httpError c) = .raisedHttpError c) ↔ c ≠ 401) ∧
    (c = 401 → test_get_harvest_runs_run_id (.httpError c) = .passed) ∧
    (∃ m, test_get_harvest_runs_run_id .ok = .raisedRuntimeError m) ∧
    ((test_post_harvest_runs (.httpError c) = .raisedHttpError c) ↔ c ≠ 401) ∧
    (c = 401 → test_post_harvest_runs (.httpError c) = .passed) ∧
    (∃ m, test_post_harvest_runs .ok = .raisedRuntimeError m) := by
  simp only [test_put_metastore_schemas_dataset_items_identifier,
    test_patch_metastore_schemas_dataset_items_identifier,
    test_put_metastore_schemas_dataset_items,
    test_patch_metastore_schemas_dataset_items,
    test_client_get_datastore_imports, test_client_post_datastore_imports,
    test_get_harvest_plans, test_post_harvest_plans,
    test_get_harvest_plans_plan_id, test_get_harvest_runs,
    test_get_harvest_runs_run_id, test_post_harvest_runs]
  refine ⟨(expectUnauthenticated_spec 501 _ c).1, (expectUnauthenticated_spec 501 _ c).2.1,
    ⟨_, (expectUnauthenticated_spec 501 _ c).2.2⟩,
    (expectUnauthenticated_spec 501 _ c).1, (expectUnauthenticated_spec 501 _ c).2.1,
    ⟨_, (expectUnauthenticated_spec 501 _ c).2.2⟩,
    (expectUnauthenticated_spec 501 _ c).1, (expectUnauthenticated_spec 501 _ c).2.1,
    ⟨_, (expectUnauthenticated_spec 501 _ c).2.2⟩,
    (expectUnauthenticated_spec 501 _ c).1, (expectUnauthenticated_spec 501 _ c).2.1,
    ⟨_, (expectUnauthenticated_spec 501 _ c).2.2⟩,
    (expectUnauthenticated_spec 401 _ c).1, (expectUnauthenticated_spec 401 _ c).2.1,
    ⟨_, (expectUnauthenticated_spec 401 _ c).2.2⟩,
    (expectUnauthenticated_spec 401 _ c).1, (expectUnauthenticated_spec 401 _ c).2.1,
    ⟨_, (expectUnauthenticated_spec 401 _ c).2.2⟩,
    (expectUnauthenticated_spec 401 _ c).1, (expectUnauthenticated_spec 401 _ c).2.1,
    ⟨_, (expectUnauthenticated_spec 401 _ c).2.2⟩,
    (expectUnauthenticated_spec 401 _ c).1, (expectUnauthenticated_spec 401 _ c).2.1,
    ⟨_, (expectUnauthenticated_spec 401 _ c).2.2⟩,
    (expectUnauthenticated_spec 401 _ c).1, (expectUnauthenticated_spec 401 _ c).2.1,
    ⟨_, (expectUnauthenticated_spec 401 _ c).2.2⟩,
    (expectUnauthenticated_spec 401 _ c).1, (expectUnauthenticated_spec 401 _ c).2.1,
    ⟨_, (expectUnauthenticated_spec 401 _ c).2.2⟩,
    (expectUnauthenticated_spec 401 _ c).1, (expectUnauthenticated_spec 401 _ c).2.1,
    ⟨_, (expectUnauthenticated_spec 401 _ c).2.2⟩,
    (expectUnauthenticated_spec 401 _ c).1, (expectUnauthenticated_spec 401 _ c).2.1,
    ⟨_, (expectUnauthenticated_spec 401 _ c).2.2⟩⟩

/-- C9: `fix_openapi_data` is the identity, so `get_openapi` parses exactly
the on-disk file content: as YAML when the (lowercased) file name ends in
`.yaml` or `.yml`, as JSON otherwise. -/
theorem fix_openapi_data_identity :
    (∀ s, fix_openapi_data s = s) ∧
    (∀ path content, get_openapi path content = get_openapi_direct path content) :=
  ⟨fun _ => rfl, fun _ _ => rfl⟩

theorem takeWhile_append_all {α : Type} (p : α → Bool) :
    ∀ (l₁ l₂ : List α), (∀ a ∈ l₁, p a = true) →
    List.takeWhile p (l₁ ++ l₂) = l₁ ++ List.takeWhile p l₂
  | [], _, _ => rfl
  | a :: l₁, l₂, h => by
    have ha : p a = true := h a (by simp)
    simp only [List.cons_append, List.takeWhile_cons, ha, if_true]
    rw [takeWhile_append_all p l₁ l₂ (fun x hx => h x (by simp [hx]))]

theorem pathSuffix_append_json (p : String) (h : pathName p ≠ "") :
    pathSuffix (p ++ ".json") = ".json" := by
  have hY : (p.data.reverse.takeWhile (fun c => (c ≠ '/' : Bool))) ≠ [] := by
    intro he
    apply h
    unfold pathName
    rw [he]
    rfl
  unfold pathSuffix
  rw [String.data_append]
  rw [List.reverse_append]
  rw [show (".json".data.reverse) = ['n', 'o', 's', 'j', '.'] from rfl]
  rw [takeWhile_append_all _ ['n', 'o', 's', 'j', '.'] _ (by decide)]
  simp only [List.reverse_reverse]
  rw [show ∀ Y, List.takeWhile (fun c => (c ≠ '.' : Bool))
      (['n', 'o', 's', 'j', '.'] ++ Y) = ['n', 'o', 's', 'j'] from fun Y => rfl]
  have hYlen : (p.data.reverse.takeWhile (fun c => (c ≠ '/' : Bool))).length ≠ 0 := by
    simpa [List.length_eq_zero] using hY
  rw [if_neg (by
    simp only [List.length_reverse, List.length_append, List.length_cons,
      List.length_nil]
    omega)]
  rw [if_neg (by decide)]
  rw [if_neg (by
    simp only [List.length_reverse, List.length_append, List.length_cons,
      List.length_nil]
    omega)]
  rfl

theorem pathSuffix_append_yaml (p : String) (h : pathName p ≠ "") :
    pathSuffix (p ++ ".yaml") = ".yaml" := by
  have hY : (p.data.reverse.takeWhile (fun c => (c ≠ '/' : Bool))) ≠ [] := by
    intro he
    apply h
    unfold pathName
    rw [he]
    rfl
  unfold pathSuffix
  rw [String.data_append]
  rw [List.reverse_append]
  rw [show (".yaml".data.reverse) = ['l', 'm', 'a', 'y', '.'] from rfl]
  rw [takeWhile_append_all _ ['l', 'm', 'a', 'y', '.'] _ (by decide)]
  simp only [List.reverse_reverse]
  rw [show ∀ Y, List.takeWhile (fun c => (c ≠ '.' : Bool))
      (['l', 'm', 'a', 'y', '.'] ++ Y) = ['l', 'm', 'a', 'y'] from fun Y => rfl]
  have hYlen : (p.data.reverse.takeWhile (fun c => (c ≠ '/' : Bool))).length ≠ 0 := by
    simpa [List.length_eq_zero] using hY
  rw [if_neg (by
    simp only [List.length_reverse, List.length_append, List.length_cons,
      List.length_nil]
    omega)]
  rw [if_neg (by decide)]
  rw [if_neg (by
    simp only [List.length_reverse, List.length_append, List.length_cons,
      List.length_nil]
    omega)]
  rfl

theorem download_eq (data path0 : String) :
    download data path0 =
      ⟨downloadPath data path0, downloadContent data (downloadPath data path0)⟩ := rfl

theorem downloadPath_keep {data path0 : String}
    (hc : strToLower (pathSuffix path0) = ".json" ∨
      strToLower (pathSuffix path0) = ".yaml" ∨
      strToLower (pathSuffix path0) = ".yml") :
    downloadPath data path0 = path0 := by
  unfold downloadPath
  rw [if_pos hc]

theorem downloadPath_json {data path0 : String} {v : Json}
    (hc : ¬(strToLower (pathSuffix path0) = ".json" ∨
      strToLower (pathSuffix path0) = ".yaml" ∨
      strToLower (pathSuffix path0) = ".yml"))
    (hj : jsonLoads data = some v) :
    downloadPath data path0 = path0 ++ ".json" := by
  unfold downloadPath
  rw [if_neg hc, hj]

theorem downloadPath_yaml {data path0 : String} {u : Unit}
    (hc : ¬(strToLower (pathSuffix path0) = ".json" ∨
      strToLower (pathSuffix path0) = ".yaml" ∨
      strToLower (pathSuffix path0) = ".yml"))
    (hj : jsonLoads data = none) (hy : yamlSafeLoad data = some u) :
    downloadPath data path0 = path0 ++ ".yaml" := by
  unfold downloadPath
  rw [if_neg hc, hj, hy]

theorem downloadPath_fallback {data path0 : String}
    (hc : ¬(strToLower (pathSuffix path0) = ".json" ∨
      strToLower (pathSuffix path0) = ".yaml" ∨
      strToLower (pathSuffix path0) = ".yml"))
    (hj : jsonLoads data = none) (hy : yamlSafeLoad data = none) :
    downloadPath data path0 =
      if jsonLikeStart data then path0 ++ ".json" else path0 ++ ".yaml" := by
  unfold downloadPath
  rw [if_neg hc, hj, hy]

theorem downloadContent_json {data p : String} {v : Json}
    (hP : strToLower (pathSuffix p) = ".json") (hj : jsonLoads data = some v) :
    downloadContent data p = jsonDumpsIndent4 v := by
  unfold downloadContent
  rw [hP, if_pos rfl, hj]

/-- C10: the path `download` returns (and writes to) always has a suffix
whose lowercase form is `.json`, `.yaml` or `.yml`: a path that already has
such a suffix is kept unchanged; otherwise `.json` or `.yaml` is appended
according to whether the data parses as JSON, else parses as YAML, else
starts with a JSON-like character.  The hypothesis `pathName path0 ≠ ""`
reflects `Path(path).absolute()`, which gives the written path a non-empty
final component. -/
theorem download_path_extension (data path0 : String) (h : pathName path0 ≠ "") :
    (strToLower (pathSuffix (download data path0).path) = ".json" ∨
     strToLower (pathSuffix (download data path0).path) = ".yaml" ∨
     strToLower (pathSuffix (download data path0).path) = ".yml") ∧
    ((strToLower (pathSuffix path0) = ".json" ∨ strToLower (pathSuffix path0) = ".yaml" ∨
      strToLower (pathSuffix path0) = ".yml") → (download data path0).path = path0) ∧
    (¬(strToLower (pathSuffix path0) = ".json" ∨ strToLower (pathSuffix path0) = ".yaml" ∨
       strToLower (pathSuffix path0) = ".yml") →
      ((jsonLoads data).isSome = true → (download data path0).path = path0 ++ ".json") ∧
      (jsonLoads data = none → (yamlSafeLoad data).isSome = true →
        (download data path0).path = path0 ++ ".yaml") ∧
      (jsonLoads data = none → yamlSafeLoad data = none →
        (download data path0).path =
          if jsonLikeStart data then path0 ++ ".json" else path0 ++ ".yaml")) := by
  have hproj : (download data path0).path = downloadPath data path0 := by
    rw [download_eq]
  by_cases hc : strToLower (pathSuffix path0) = ".json" ∨
      strToLower (pathSuffix path0) = ".yaml" ∨ strToLower (pathSuffix path0) = ".yml"
  · refine ⟨?_, fun _ => by rw [hproj, downloadPath_keep hc],
      fun hnc => absurd hc hnc⟩
    rw [hproj, downloadPath_keep hc]
    exact hc
  · refine ⟨?_, fun hyes => absurd hyes hc, fun _ => ⟨?_, ?_, ?_⟩⟩
    · cases hj : jsonLoads data with
      | some v =>
        rw [hproj, downloadPath_json hc hj, pathSuffix_append_json path0 h]
        left
        decide
      | none =>
        cases hy : yamlSafeLoad data with
        | some u =>
          rw [hproj, downloadPath_yaml hc hj hy, pathSuffix_append_yaml path0 h]
          right
          left
          decide
        | none =>
          rw [hproj, downloadPath_fallback hc hj hy]
          by_cases hl : jsonLikeStart data = true
          · rw [if_pos hl, pathSuffix_append_json path0 h]
            left
            decide
          · rw [if_neg hl, pathSuffix_append_yaml path0 h]
            right
            left
            decide
    · intro hj
      obtain ⟨v, hv⟩ := Option.isSome_iff_exists.1 hj
      rw [hproj, downloadPath_json hc hv]
    · intro hj hy
      obtain ⟨u, hu⟩ := Option.isSome_iff_exists.1 hy
      rw [hproj, downloadPath_yaml hc hj hu]
    · intro hj hy
      rw [hproj, downloadPath_fallback hc hj hy]

/-- Witness for C10 at concrete data that parses as JSON and a bare path. -/
theorem download_path_extension_witness :
    (strToLower (pathSuffix (download "[1]" "file").path) = ".json" ∨
     strToLower (pathSuffix (download "[1]" "file").path) = ".yaml" ∨
     strToLower (pathSuffix (download "[1]" "file").path) = ".yml") ∧
    ((strToLower (pathSuffix "file") = ".json" ∨ strToLower (pathSuffix "file") = ".yaml" ∨
      strToLower (pathSuffix "file") = ".yml") → (download "[1]" "file").path = "file") ∧
    (¬(strToLower (pathSuffix "file") = ".json" ∨ strToLower (pathSuffix "file") = ".yaml" ∨
       strToLower (pathSuffix "file") = ".yml") →
      ((jsonLoads "[1]").isSome = true →
        (download "[1]" "file").path = "file" ++ ".json") ∧
      (jsonLoads "[1]" = none → (yamlSafeLoad "[1]").isSome = true →
        (download "[1]" "file").path = "file" ++ ".yaml") ∧
      (jsonLoads "[1]" = none → yamlSafeLoad "[1]" = none →
        (download "[1]" "file").path =
          if jsonLikeStart "[1]" then "file" ++ ".json" else "file" ++ ".yaml")) :=
  download_path_extension "[1]" "file" (by decide)

/-- C8 (counterexample): `download` does not always write a JSON file.  For
response data `a: 1` (YAML but not JSON) and target path `file`, the file is
written to `file.yaml` — not a JSON extension — and its content is the raw
data, not pretty-printed JSON. -/
theorem download_writes_yaml_counterexample :
    (download "a: 1" "file").path = "file.yaml" ∧
    strToLower (pathSuffix (download "a: 1" "file").path) ≠ ".json" ∧
    (download "a: 1" "file").content = "a: 1" := by
  refine ⟨rfl, by decide, rfl⟩

/-- C8 (amended): when the downloaded data parses as JSON, the file written
is a JSON file: with no recognised suffix on the given path, `.json` is
appended and the content is the `indent=4` pretty-printed parse; with a
`.json` suffix already present the path is kept and the content is likewise
pretty-printed.  (Data that does not parse as JSON may be written raw to a
`.yaml` path.) -/
theorem download_json_pretty (data path0 : String) (v : Json)
    (h : pathName path0 ≠ "") (hj : jsonLoads data = some v) :
    (¬(strToLower (pathSuffix path0) = ".json" ∨ strToLower (pathSuffix path0) = ".yaml" ∨
       strToLower (pathSuffix path0) = ".yml") →
      download data path0 = ⟨path0 ++ ".json", jsonDumpsIndent4 v⟩) ∧
    (strToLower (pathSuffix path0) = ".json" →
      download data path0 = ⟨path0, jsonDumpsIndent4 v⟩) := by
  constructor
  · intro hnc
    rw [download_eq, downloadPath_json hnc hj,
      downloadContent_json (by rw [pathSuffix_append_json path0 h]; decide) hj]
  · intro hcj
    rw [download_eq, downloadPath_keep (Or.inl hcj), downloadContent_json hcj hj]

/-- C5: `main` runs its steps in the fixed order: download the original,
parse it, apply `fix_provider_data_openapi`, write the fixed document to
`fixed.json`, generate the model module on the fixed document, then read
`fixed.json` back and generate the client module with default url equal to
the fixed document's first server url and default
`retry_number_of_attempts` equal to 3. -/
theorem main_pipeline_order (data : String) (parsedDoc fixedDoc : OpenAPI)
    (h : fix_provider_data_openapi parsedDoc = .ok fixedDoc) :
    main data parsedDoc = .ok
      [Event.downloadFile "https://data.cms.gov/provider-data/api/1"
         (download data "openapi/provider_data/v1/original").path,
       Event.parseOriginal (download data "openapi/provider_data/v1/original").path,
       Event.applyFix,
       Event.writeFixed "openapi/provider_data/v1/fixed.json" fixedDoc,
       Event.generateModelModule "src/cmsgov/provider_data/v1/model.py" fixedDoc,
       Event.readFixed "openapi/provider_data/v1/fixed.json",
       Event.generateClientModule "src/cmsgov/provider_data/v1/client.py"
         (firstServerUrl fixedDoc) 3] := by
  have h1 : update_openapi_original PROVIDER_DATA_V1 data =
      .ok ([Event.downloadFile "https://data.cms.gov/provider-data/api/1"
              (download data "openapi/provider_data/v1/original").path],
           (download data "openapi/provider_data/v1/original").path) := rfl
  simp only [main, update_model, update_client, h1, h]
  simp [PROVIDER_DATA_V1, MODEL_PY, CLIENT_PY, dictGet?]

/-- Witness for C5 at the concrete witness document. -/
theorem main_pipeline_order_witness :
    main "[1]" miniDoc = .ok
      [Event.downloadFile "https://data.cms.gov/provider-data/api/1"
         (download "[1]" "openapi/provider_data/v1/original").path,
       Event.parseOriginal (download "[1]" "openapi/provider_data/v1/original").path,
       Event.applyFix,
       Event.writeFixed "openapi/provider_data/v1/fixed.json" miniFixed,
       Event.generateModelModule "src/cmsgov/provider_data/v1/model.py" miniFixed,
       Event.readFixed "openapi/provider_data/v1/fixed.json",
       Event.generateClientModule "src/cmsgov/provider_data/v1/client.py"
         (firstServerUrl miniFixed) 3] :=
  main_pipeline_order "[1]" miniDoc miniFixed rfl

/-- Witness for the amended C8 at concrete JSON data. -/
theorem download_json_pretty_witness :
    (¬(strToLower (pathSuffix "file") = ".json" ∨ strToLower (pathSuffix "file") = ".yaml" ∨
       strToLower (pathSuffix "file") = ".yml") →
      download "[1]" "file" = ⟨"file" ++ ".json",
        jsonDumpsIndent4 (.arr [.num 1])⟩) ∧
    (strToLower (pathSuffix "file") = ".json" →
      download "[1]" "file" = ⟨"file", jsonDumpsIndent4 (.arr [.num 1])⟩) :=
  download_json_pretty "[1]" "file" (.arr [.num 1]) (by decide) rfl

end Cmsgov
